import Mathlib

/-!
Verification of the uniform-block layout compiler and serializer of the
nmage engine (`buffers/uniform_buffer.go`, together with the `ElementType`
descriptor table of `buffers/framebuffer.go`).

Modelling conventions:
* Go `uint16` arithmetic is `Nat` reduced `% 65536` at every operation;
  Go `int` (64-bit, never overflowed here) is plain `Nat` — all cursor and
  size values in the serializer are nonnegative at every call site.
* `float32` values are represented by their IEEE-754 bit patterns
  (`math.Float32bits` is the only way a float enters a byte buffer, and it
  is a bijection between values and 32-bit patterns), so bit-for-bit
  round-trip claims become equalities of the patterns.
* Byte buffers are `List Nat` with entries kept `< 256` by reducing every
  stored byte `% 256`, exactly where Go applies the `byte(..)` cast.
* Calls to `assert.T` / `logging.ErrLog.Panicf` (packages of this
  repository that are not part of the analysed sources) are modelled from
  the spec: every violation is fatal to the call, represented by an
  `Except` error carrying the data the message reports.
* The recursive compiler and serializer are embedded with an explicit fuel
  parameter; the Go recursion always terminates, and every theorem about a
  run is stated for an arbitrary fuel on which the run succeeds.
-/

namespace Nmage

/-- Data types of `ElementType` in `buffers/framebuffer.go`. -/
inductive ElementType where
  | dataTypeUnknown
  | dataTypeUint32
  | dataTypeInt32
  | dataTypeFloat32
  | dataTypeVec2
  | dataTypeVec3
  | dataTypeVec4
  | dataTypeMat2
  | dataTypeMat3
  | dataTypeMat4
  | dataTypeStruct
deriving DecidableEq, Repr

/-- Fatal outcomes of the layout compiler and serializer: every `assert.T`
failure or `Panicf` in the Go sources is one of these. -/
inductive UBError where
  | schemaError (fieldId : Nat)
  | unknownTypeError
  | lengthMismatch (fieldId expected actual : Nat)
  | typeMismatch (fieldIndex : Nat) (expected : ElementType)
  | capacityError (startIndex bufLen : Nat)
  | lookupError (fieldId : Nat)
  | getFieldTypeConflict (fieldId : Nat)
  | notAStructError
  | reflectFieldOutOfRange
  | outOfFuel
deriving DecidableEq, Repr

/-- Embedding of `ElementType.GlStd140AlignmentBoundary` (framebuffer.go):
4 for the scalars, 8 for Vec2, 16 for Vec3/Vec4/matrices/Struct, and a
fatal assert for `DataTypeUnknown`. -/
def glStd140AlignmentBoundary : ElementType → Except UBError Nat
  | .dataTypeUint32 => .ok 4
  | .dataTypeFloat32 => .ok 4
  | .dataTypeInt32 => .ok 4
  | .dataTypeVec2 => .ok 8
  | .dataTypeVec3 => .ok 16
  | .dataTypeVec4 => .ok 16
  | .dataTypeMat2 => .ok 16
  | .dataTypeMat3 => .ok 16
  | .dataTypeMat4 => .ok 16
  | .dataTypeStruct => .ok 16
  | .dataTypeUnknown => .error .unknownTypeError

/-- Total projection of the alignment table, for stating properties
(0 for the unknown type, which the Go function returns after the assert). -/
def glStd140AlignmentBoundaryN (t : ElementType) : Nat :=
  match glStd140AlignmentBoundary t with
  | .ok b => b
  | .error _ => 0

/-- Matrices advance the cursor once per column: the `multiplier` local of
`addUniformBufferFieldsToArray`. -/
def matrixColumnMultiplier : ElementType → Nat
  | .dataTypeMat2 => 2
  | .dataTypeMat3 => 3
  | .dataTypeMat4 => 4
  | _ => 1

/-- Reduction of Go `uint16` arithmetic. -/
def u16 (n : Nat) : Nat := n % 65536

/-- Go `uint16` subtraction `a - b` (wraps modulo 2^16). -/
def u16sub (a b : Nat) : Nat := (a + 65536 - b % 65536) % 65536

/-- Embedding of `padTo16Boundary` at its `uint16` instantiation (used by
the layout compiler). -/
def padTo16BoundaryU16 (val : Nat) : Nat :=
  let alignmentError := val % 16
  if alignmentError ≠ 0 then u16 (val + (16 - alignmentError)) else val

/-- Embedding of `padTo16Boundary` at its `int` instantiation (used by the
serializer; Go 64-bit int on nonnegative values, no wrap-around). -/
def padTo16BoundaryInt (val : Nat) : Nat :=
  let alignmentError := val % 16
  if alignmentError ≠ 0 then val + (16 - alignmentError) else val

/-- Cursor alignment step of the compiler loop: advance `alignedOffset`
to the next multiple of `alignmentBoundary` (Go lines 628-631; `uint16`
addition wraps). -/
def alignCursor (alignedOffset alignmentBoundary : Nat) : Nat :=
  let alignmentError := alignedOffset % alignmentBoundary
  if alignmentError ≠ 0 then
    u16 (alignedOffset + (alignmentBoundary - alignmentError))
  else alignedOffset

/-- Cursor advance for a non-struct field (Go line 659):
`newField.AlignedOffset + alignmentBoundary*Count*multiplier -
startAlignedOffset` in `uint16` arithmetic. -/
def nonStructAdvance (newFieldOffset alignmentBoundary count multiplier
    startAlignedOffset : Nat) : Nat :=
  u16sub (u16 (newFieldOffset +
    u16 (u16 (alignmentBoundary * count) * multiplier))) startAlignedOffset

/-- Cursor advance for a struct field (Go lines 652-656): the recursive
size, cast to `uint16`, padded to a 16-byte boundary, times `Count`,
added to the aligned cursor. -/
def structAdvance (ac subTotal count : Nat) : Nat :=
  u16 (ac + u16 (padTo16BoundaryU16 (u16 subTotal) * count))

/-- Input schema node `UniformBufferFieldInput`: `Count` 0 or 1 declares a
scalar field, `Count > 1` a fixed-size array, and `subfields` carries a
struct's fields. -/
inductive UniformBufferFieldInput where
  | mk (id : Nat) (type : ElementType) (count : Nat)
       (subfields : List UniformBufferFieldInput)

/-- Resolved field `UniformBufferField`. The Go struct also declares a
`Subfields` slice, but `addUniformBufferFieldsToArray` never populates it
(subfields are inlined into the same flat array) and `setStruct` never
reads it, so it is elided here. -/
structure UniformBufferField where
  id : Nat
  alignedOffset : Nat
  count : Nat
  type : ElementType
deriving DecidableEq, Repr

/-- Embedding of the loop of `addUniformBufferFieldsToArray`
(uniform_buffer.go:589-664).  State: the `startAlignedOffset` argument,
the fields still to add, the running `alignedOffset` cursor and the
`fieldIdToTypeMap`.  The source allocates that map and queries it for the
duplicate-Id assert, but never inserts into it — the embedding mirrors
that exactly, so the map parameter never grows.  Returns the fields
appended to `arrayToAddTo` (nested struct fields inlined right after
their struct) together with the final cursor. -/
def addUniformBufferFieldsToArrayLoop (fuel : Nat) (startAlignedOffset : Nat)
    (fieldsToAdd : List UniformBufferFieldInput) (alignedOffset : Nat)
    (fieldIdToTypeMap : List (Nat × ElementType)) :
    Except UBError (List UniformBufferField × Nat) :=
  match fuel with
  | 0 => .error .outOfFuel
  | fuel + 1 =>
    match fieldsToAdd with
    | [] => .ok ([], alignedOffset)
    | .mk fid fty fcnt fsubs :: rest => do
      let count := if fcnt = 0 then 1 else fcnt
      if (fieldIdToTypeMap.lookup fid).isSome then
        throw (.schemaError fid)
      else do
        let alignmentBoundary ←
          if count = 1 then glStd140AlignmentBoundary fty else pure 16
        let ac := alignCursor alignedOffset alignmentBoundary
        let newField : UniformBufferField :=
          ⟨fid, u16 (startAlignedOffset + ac), count, fty⟩
        if fty = .dataTypeStruct then do
          let (subFields, subTotal) ←
            addUniformBufferFieldsToArrayLoop fuel (u16 (startAlignedOffset + ac))
              fsubs 0 []
          let (restFields, finalCursor) ←
            addUniformBufferFieldsToArrayLoop fuel startAlignedOffset rest
              (structAdvance ac subTotal count) fieldIdToTypeMap
          .ok (newField :: (subFields ++ restFields), finalCursor)
        else do
          let (restFields, finalCursor) ←
            addUniformBufferFieldsToArrayLoop fuel startAlignedOffset rest
              (nonStructAdvance newField.alignedOffset alignmentBoundary count
                (matrixColumnMultiplier fty) startAlignedOffset)
              fieldIdToTypeMap
          .ok (newField :: restFields, finalCursor)

/-- Embedding of `addUniformBufferFieldsToArray`: an empty schema returns
size 0 at once, otherwise the loop runs from cursor 0 with a fresh (and
forever empty) id-to-type map. -/
def addUniformBufferFieldsToArray (fuel : Nat) (startAlignedOffset : Nat)
    (fieldsToAdd : List UniformBufferFieldInput) :
    Except UBError (List UniformBufferField × Nat) :=
  if fieldsToAdd.isEmpty then .ok ([], 0)
  else addUniformBufferFieldsToArrayLoop fuel startAlignedOffset fieldsToAdd 0 []

/-- One little-endian 32-bit store: the four `buf[i] = byte(v >> 8k)`
assignments shared (textually) by every Go write primitive. -/
def writeWord (buf : List Nat) (i : Nat) (val : Nat) : List Nat :=
  ((((buf.set i (val % 256)).set (i + 1) (val / 256 % 256)).set (i + 2)
      (val / 65536 % 256)).set (i + 3) (val / 16777216 % 256))

/-- Embedding of `Write32BitIntegerToByteBuf`: bounds assert, four
little-endian byte stores, cursor advanced by 4.  `val` is the 32-bit
pattern of the `uint32`/`int32` argument. -/
def Write32BitIntegerToByteBuf (buf : List Nat) (startIndex : Nat) (val : Nat) :
    Except UBError (List Nat × Nat) :=
  if startIndex + 4 ≤ buf.length then
    .ok (writeWord buf startIndex val, startIndex + 4)
  else .error (.capacityError startIndex buf.length)

/-- Embedding of `WriteF32ToByteBuf`; `valBits` is `math.Float32bits` of
the float argument. -/
def WriteF32ToByteBuf (buf : List Nat) (startIndex : Nat) (valBits : Nat) :
    Except UBError (List Nat × Nat) :=
  if startIndex + 4 ≤ buf.length then
    .ok (writeWord buf startIndex valBits, startIndex + 4)
  else .error (.capacityError startIndex buf.length)

/-- The write loop shared by the scalar-slice primitives: store each
32-bit pattern, then advance the cursor by `stride` (4 in the packed
`WriteF32SliceToByteBuf`, `alignmentPerField` in the aligned variants). -/
def writeWordsWithStride (buf : List Nat) (i stride : Nat) :
    List Nat → List Nat × Nat
  | [] => (buf, i)
  | v :: vs => writeWordsWithStride (writeWord buf i v) (i + stride) stride vs

/-- Embedding of `WriteF32SliceToByteBuf` (packed, stride 4). -/
def WriteF32SliceToByteBuf (buf : List Nat) (startIndex : Nat)
    (vals : List Nat) : Except UBError (List Nat × Nat) :=
  if startIndex + vals.length * 4 ≤ buf.length then
    .ok (writeWordsWithStride buf startIndex 4 vals)
  else .error (.capacityError startIndex buf.length)

/-- Embedding of `WriteF32SliceToByteBufWithAlignment`. -/
def WriteF32SliceToByteBufWithAlignment (buf : List Nat) (startIndex : Nat)
    (alignmentPerField : Nat) (vals : List Nat) :
    Except UBError (List Nat × Nat) :=
  if startIndex + vals.length * alignmentPerField ≤ buf.length then
    .ok (writeWordsWithStride buf startIndex alignmentPerField vals)
  else .error (.capacityError startIndex buf.length)

/-- Embedding of `Write32BitIntegerSliceToByteBufWithAlignment`. -/
def Write32BitIntegerSliceToByteBufWithAlignment (buf : List Nat)
    (startIndex : Nat) (alignmentPerField : Nat) (vals : List Nat) :
    Except UBError (List Nat × Nat) :=
  if startIndex + vals.length * alignmentPerField ≤ buf.length then
    .ok (writeWordsWithStride buf startIndex alignmentPerField vals)
  else .error (.capacityError startIndex buf.length)

/-- Components of `gglm.Vec2` as 32-bit patterns (`Data[0]`, `Data[1]`). -/
structure GVec2 where
  x : Nat
  y : Nat
deriving DecidableEq, Repr

/-- Components of `gglm.Vec3` as 32-bit patterns. -/
structure GVec3 where
  x : Nat
  y : Nat
  z : Nat
deriving DecidableEq, Repr

/-- Components of `gglm.Vec4` as 32-bit patterns. -/
structure GVec4 where
  x : Nat
  y : Nat
  z : Nat
  w : Nat
deriving DecidableEq, Repr

/-- Columns of `gglm.Mat2` (`Data[0]`, `Data[1]`; column-major). -/
structure GMat2 where
  c0 : GVec2
  c1 : GVec2
deriving DecidableEq, Repr

/-- Columns of `gglm.Mat3`. -/
structure GMat3 where
  c0 : GVec3
  c1 : GVec3
  c2 : GVec3
deriving DecidableEq, Repr

/-- Columns of `gglm.Mat4`. -/
structure GMat4 where
  c0 : GVec4
  c1 : GVec4
  c2 : GVec4
  c3 : GVec4
deriving DecidableEq, Repr

/-- Write loop of `WriteVec2SliceToByteBufWithAlignment`: 8 payload bytes
per vector, cursor advanced by `stride`. -/
def writeVec2sWithStride (buf : List Nat) (i stride : Nat) :
    List GVec2 → List Nat × Nat
  | [] => (buf, i)
  | v :: vs =>
    writeVec2sWithStride (writeWord (writeWord buf i v.x) (i + 4) v.y)
      (i + stride) stride vs

/-- Write loop of `WriteVec3SliceToByteBufWithAlignment`: 12 payload bytes
per vector. -/
def writeVec3sWithStride (buf : List Nat) (i stride : Nat) :
    List GVec3 → List Nat × Nat
  | [] => (buf, i)
  | v :: vs =>
    writeVec3sWithStride
      (writeWord (writeWord (writeWord buf i v.x) (i + 4) v.y) (i + 8) v.z)
      (i + stride) stride vs

/-- Write loop of `WriteVec4SliceToByteBufWithAlignment`: 16 payload bytes
per vector. -/
def writeVec4sWithStride (buf : List Nat) (i stride : Nat) :
    List GVec4 → List Nat × Nat
  | [] => (buf, i)
  | v :: vs =>
    writeVec4sWithStride
      (writeWord (writeWord (writeWord (writeWord buf i v.x) (i + 4) v.y)
        (i + 8) v.z) (i + 12) v.w)
      (i + stride) stride vs

/-- Embedding of `WriteVec2SliceToByteBufWithAlignment`. -/
def WriteVec2SliceToByteBufWithAlignment (buf : List Nat) (startIndex : Nat)
    (alignmentPerVector : Nat) (vals : List GVec2) :
    Except UBError (List Nat × Nat) :=
  if startIndex + vals.length * alignmentPerVector ≤ buf.length then
    .ok (writeVec2sWithStride buf startIndex alignmentPerVector vals)
  else .error (.capacityError startIndex buf.length)

/-- Embedding of `WriteVec3SliceToByteBufWithAlignment`. -/
def WriteVec3SliceToByteBufWithAlignment (buf : List Nat) (startIndex : Nat)
    (alignmentPerVector : Nat) (vals : List GVec3) :
    Except UBError (List Nat × Nat) :=
  if startIndex + vals.length * alignmentPerVector ≤ buf.length then
    .ok (writeVec3sWithStride buf startIndex alignmentPerVector vals)
  else .error (.capacityError startIndex buf.length)

/-- Embedding of `WriteVec4SliceToByteBufWithAlignment`. -/
def WriteVec4SliceToByteBufWithAlignment (buf : List Nat) (startIndex : Nat)
    (alignmentPerVector : Nat) (vals : List GVec4) :
    Except UBError (List Nat × Nat) :=
  if startIndex + vals.length * alignmentPerVector ≤ buf.length then
    .ok (writeVec4sWithStride buf startIndex alignmentPerVector vals)
  else .error (.capacityError startIndex buf.length)

/-- Per-matrix loop of `WriteMat2SliceToByteBufWithAlignment`: each matrix
is written as its two columns through the Vec2 writer at alignment 16. -/
def writeMat2sLoop (buf : List Nat) (i : Nat) :
    List GMat2 → Except UBError (List Nat × Nat)
  | [] => .ok (buf, i)
  | m :: ms => do
    let (b, j) ← WriteVec2SliceToByteBufWithAlignment buf i 16 [m.c0, m.c1]
    writeMat2sLoop b j ms

/-- Embedding of `WriteMat2SliceToByteBufWithAlignment`. -/
def WriteMat2SliceToByteBufWithAlignment (buf : List Nat) (startIndex : Nat)
    (alignmentPerMatrix : Nat) (vals : List GMat2) :
    Except UBError (List Nat × Nat) :=
  if startIndex + vals.length * alignmentPerMatrix ≤ buf.length then
    writeMat2sLoop buf startIndex vals
  else .error (.capacityError startIndex buf.length)

/-- Per-matrix loop of `WriteMat3SliceToByteBufWithAlignment`. -/
def writeMat3sLoop (buf : List Nat) (i : Nat) :
    List GMat3 → Except UBError (List Nat × Nat)
  | [] => .ok (buf, i)
  | m :: ms => do
    let (b, j) ← WriteVec3SliceToByteBufWithAlignment buf i 16 [m.c0, m.c1, m.c2]
    writeMat3sLoop b j ms

/-- Embedding of `WriteMat3SliceToByteBufWithAlignment`. -/
def WriteMat3SliceToByteBufWithAlignment (buf : List Nat) (startIndex : Nat)
    (alignmentPerMatrix : Nat) (vals : List GMat3) :
    Except UBError (List Nat × Nat) :=
  if startIndex + vals.length * alignmentPerMatrix ≤ buf.length then
    writeMat3sLoop buf startIndex vals
  else .error (.capacityError startIndex buf.length)

/-- Per-matrix loop of `WriteMat4SliceToByteBufWithAlignment`. -/
def writeMat4sLoop (buf : List Nat) (i : Nat) :
    List GMat4 → Except UBError (List Nat × Nat)
  | [] => .ok (buf, i)
  | m :: ms => do
    let (b, j) ←
      WriteVec4SliceToByteBufWithAlignment buf i 16 [m.c0, m.c1, m.c2, m.c3]
    writeMat4sLoop b j ms

/-- Embedding of `WriteMat4SliceToByteBufWithAlignment`. -/
def WriteMat4SliceToByteBufWithAlignment (buf : List Nat) (startIndex : Nat)
    (alignmentPerMatrix : Nat) (vals : List GMat4) :
    Except UBError (List Nat × Nat) :=
  if startIndex + vals.length * alignmentPerMatrix ≤ buf.length then
    writeMat4sLoop buf startIndex vals
  else .error (.capacityError startIndex buf.length)

/-- The layout-carrying part of `UniformBuffer` (the GL handle is elided). -/
structure UniformBuffer where
  size : Nat
  fields : List UniformBufferField
deriving DecidableEq, Repr

/-- Embedding of `NewUniformBuffer`: compiles the schema into the flat
field list and total size (the GL buffer allocation is elided). -/
def NewUniformBuffer (fuel : Nat) (fields : List UniformBufferFieldInput) :
    Except UBError UniformBuffer := do
  let (fs, total) ← addUniformBufferFieldsToArray fuel 0 fields
  .ok ⟨total, fs⟩

/-- Runtime values handed to `SetStruct`, as Go reflection classifies
them: scalars carry their 32-bit patterns, slices/arrays are homogeneous
with a statically known element type (hence one constructor per element
type), and structs carry their ordered field values. -/
inductive GoValue where
  | u32 (bits : Nat)
  | i32 (bits : Nat)
  | f32 (bits : Nat)
  | vec2 (v : GVec2)
  | vec3 (v : GVec3)
  | vec4 (v : GVec4)
  | mat2 (m : GMat2)
  | mat3 (m : GMat3)
  | mat4 (m : GMat4)
  | structV (fields : List GoValue)
  | u32Arr (elems : List Nat)
  | i32Arr (elems : List Nat)
  | f32Arr (elems : List Nat)
  | vec2Arr (elems : List GVec2)
  | vec3Arr (elems : List GVec3)
  | vec4Arr (elems : List GVec4)
  | mat2Arr (elems : List GMat2)
  | mat3Arr (elems : List GMat3)
  | mat4Arr (elems : List GMat4)
  | structArr (elems : List GoValue)

/-- Go: `kind == reflect.Slice || kind == reflect.Array`. -/
def GoValue.isArrayValue : GoValue → Bool
  | .u32Arr _ => true
  | .i32Arr _ => true
  | .f32Arr _ => true
  | .vec2Arr _ => true
  | .vec3Arr _ => true
  | .vec4Arr _ => true
  | .mat2Arr _ => true
  | .mat3Arr _ => true
  | .mat4Arr _ => true
  | .structArr _ => true
  | _ => false

/-- Go: `valField.Len()` of a slice/array value (0 for non-arrays, where
the source never consults it). -/
def GoValue.arrayLen : GoValue → Nat
  | .u32Arr es => es.length
  | .i32Arr es => es.length
  | .f32Arr es => es.length
  | .vec2Arr es => es.length
  | .vec3Arr es => es.length
  | .vec4Arr es => es.length
  | .mat2Arr es => es.length
  | .mat3Arr es => es.length
  | .mat4Arr es => es.length
  | .structArr es => es.length
  | _ => 0

/-- The `typeMatches` computation of `setStruct`, per declared
`ElementType`: a reflection type-name comparison for the scalar and
slice cases and a `reflect.Struct` kind test for struct fields. -/
def uniformFieldTypeMatches : ElementType → GoValue → Bool
  | .dataTypeUint32, .u32 _ => true
  | .dataTypeUint32, .u32Arr _ => true
  | .dataTypeInt32, .i32 _ => true
  | .dataTypeInt32, .i32Arr _ => true
  | .dataTypeFloat32, .f32 _ => true
  | .dataTypeFloat32, .f32Arr _ => true
  | .dataTypeVec2, .vec2 _ => true
  | .dataTypeVec2, .vec2Arr _ => true
  | .dataTypeVec3, .vec3 _ => true
  | .dataTypeVec3, .vec3Arr _ => true
  | .dataTypeVec4, .vec4 _ => true
  | .dataTypeVec4, .vec4Arr _ => true
  | .dataTypeMat2, .mat2 _ => true
  | .dataTypeMat2, .mat2Arr _ => true
  | .dataTypeMat3, .mat3 _ => true
  | .dataTypeMat3, .mat3Arr _ => true
  | .dataTypeMat4, .mat4 _ => true
  | .dataTypeMat4, .mat4Arr _ => true
  | .dataTypeStruct, .structV _ => true
  | .dataTypeStruct, .structArr _ => true
  | _, _ => false

/-- Go: `elementType.NumField()` for the statically known element type of
a `[]SomeStruct` slice (only consulted when the slice is non-empty, since
the length assert rules out empty slices first). -/
def structArrElemNumFields : List GoValue → Nat
  | .structV fs :: _ => fs.length
  | _ => 0

/-- Result of one `setStruct` call: the byte buffer after the call, the
two Go return values (`bytesWritten`, relative, and `fieldsConsumed`),
the absolute `bytesWritten` local at exit (the flush length), and the
bytes handed to `gl.BufferSubData` when the call flushes. -/
structure SetStructResult where
  buf : List Nat
  bytesWrittenRet : Nat
  bytesWrittenAbs : Nat
  fieldsConsumed : Nat
  flush : Option (List Nat)
deriving DecidableEq, Repr

/-- The non-struct arms of the type switch of `setStruct`, including the
unknown-type assert and the type-mismatch panic (the two `DataTypeStruct`
arms live in the field loop, which recurses): given the declared element
type and the reflected value, either write the value's bytes at the
cursor `bw0` through the corresponding write primitive and return the
advanced cursor, or fail. -/
def writeUniformField (buf : List Nat) (bw0 fieldIndex : Nat)
    (t : ElementType) (v : GoValue) : Except UBError (List Nat × Nat) :=
  match t, v with
  | .dataTypeUint32, .u32 bits => Write32BitIntegerToByteBuf buf bw0 bits
  | .dataTypeUint32, .u32Arr es =>
    Write32BitIntegerSliceToByteBufWithAlignment buf bw0 16 es
  | .dataTypeInt32, .i32 bits => Write32BitIntegerToByteBuf buf bw0 bits
  | .dataTypeInt32, .i32Arr es =>
    Write32BitIntegerSliceToByteBufWithAlignment buf bw0 16 es
  | .dataTypeFloat32, .f32 bits => WriteF32ToByteBuf buf bw0 bits
  | .dataTypeFloat32, .f32Arr es =>
    WriteF32SliceToByteBufWithAlignment buf bw0 16 es
  | .dataTypeVec2, .vec2 v2 => WriteF32SliceToByteBuf buf bw0 [v2.x, v2.y]
  | .dataTypeVec2, .vec2Arr es =>
    WriteVec2SliceToByteBufWithAlignment buf bw0 16 es
  | .dataTypeVec3, .vec3 v3 =>
    WriteF32SliceToByteBuf buf bw0 [v3.x, v3.y, v3.z]
  | .dataTypeVec3, .vec3Arr es =>
    WriteVec3SliceToByteBufWithAlignment buf bw0 16 es
  | .dataTypeVec4, .vec4 v4 =>
    WriteF32SliceToByteBuf buf bw0 [v4.x, v4.y, v4.z, v4.w]
  | .dataTypeVec4, .vec4Arr es =>
    WriteVec4SliceToByteBufWithAlignment buf bw0 16 es
  | .dataTypeMat2, .mat2 m => do
    let (b1, k1) ← WriteF32SliceToByteBuf buf bw0 [m.c0.x, m.c0.y]
    WriteF32SliceToByteBuf b1 k1 [m.c1.x, m.c1.y]
  | .dataTypeMat2, .mat2Arr es =>
    WriteMat2SliceToByteBufWithAlignment buf bw0 (16 * 2) es
  | .dataTypeMat3, .mat3 m => do
    let (b1, k1) ← WriteF32SliceToByteBuf buf bw0 [m.c0.x, m.c0.y, m.c0.z]
    let (b2, k2) ← WriteF32SliceToByteBuf b1 k1 [m.c1.x, m.c1.y, m.c1.z]
    WriteF32SliceToByteBuf b2 k2 [m.c2.x, m.c2.y, m.c2.z]
  | .dataTypeMat3, .mat3Arr es =>
    WriteMat3SliceToByteBufWithAlignment buf bw0 (16 * 3) es
  | .dataTypeMat4, .mat4 m => do
    let (b1, k1) ←
      WriteF32SliceToByteBuf buf bw0 [m.c0.x, m.c0.y, m.c0.z, m.c0.w]
    let (b2, k2) ←
      WriteF32SliceToByteBuf b1 k1 [m.c1.x, m.c1.y, m.c1.z, m.c1.w]
    let (b3, k3) ←
      WriteF32SliceToByteBuf b2 k2 [m.c2.x, m.c2.y, m.c2.z, m.c2.w]
    WriteF32SliceToByteBuf b3 k3 [m.c3.x, m.c3.y, m.c3.z, m.c3.w]
  | .dataTypeMat4, .mat4Arr es =>
    WriteMat4SliceToByteBufWithAlignment buf bw0 (16 * 4) es
  | t, _ =>
    if t = .dataTypeUnknown then .error .unknownTypeError
    else .error (.typeMismatch fieldIndex t)

mutual

/-- Embedding of `setStruct` (uniform_buffer.go:744-978).  An empty field
window returns immediately; a non-struct value is fatal; otherwise the
field loop runs, and on completion a zero `bytesWritten` suppresses both
return size and flush, while a top-level call (`onlyBufWrite = false`)
hands `buf[0:bytesWritten]` to the GL buffer sink. -/
def setStructFuel (fuel : Nat) (fields : List UniformBufferField)
    (buf : List Nat) (inputStruct : GoValue) (maxFieldsToConsume : Nat)
    (onlyBufWrite : Bool) (writeOffset : Nat) :
    Except UBError SetStructResult :=
  match fuel with
  | 0 => .error .outOfFuel
  | fuel + 1 =>
    match fields with
    | [] => .ok ⟨buf, 0, 0, 0, none⟩
    | f0 :: _ =>
      match inputStruct with
      | .structV vals => do
        let (buf2, bytesWritten, fieldsConsumed) ←
          setStructLoopFuel fuel fields vals 0 maxFieldsToConsume buf
            writeOffset 0 0
        if bytesWritten = 0 then
          .ok ⟨buf2, 0, 0, fieldsConsumed, none⟩
        else
          let flush :=
            if onlyBufWrite then none else some (buf2.take bytesWritten)
          .ok ⟨buf2, bytesWritten - f0.alignedOffset - writeOffset,
               bytesWritten, fieldsConsumed, flush⟩
      | _ => .error .notAStructError

/-- The field loop of `setStruct`.  `fs` is the window of flat fields not
yet reached (`fields[fieldIndex:]`), `vals` the struct values not yet
consumed, `allowance` the remaining iteration budget
(`maxFieldsToConsume - fieldIndex`), and `bytesWritten` the cursor value
left by the previous iteration.  The two `DataTypeStruct` switch arms
recurse; every other arm (including the mismatch panics) is
`writeUniformField`. -/
def setStructLoopFuel (fuel : Nat) (fs : List UniformBufferField)
    (vals : List GoValue) (fieldIndex allowance : Nat) (buf : List Nat)
    (writeOffset bytesWritten fieldsConsumed : Nat) :
    Except UBError (List Nat × Nat × Nat) :=
  match fuel with
  | 0 => .error .outOfFuel
  | fuel + 1 =>
    match fs with
    | [] => .ok (buf, bytesWritten, fieldsConsumed)
    | ubField :: fsRest =>
      if allowance = 0 then .ok (buf, bytesWritten, fieldsConsumed)
      else
        match vals with
        | [] => .error .reflectFieldOutOfRange
        | v :: valsRest =>
          let fieldsConsumed := fieldsConsumed + 1
          if v.isArrayValue && (v.arrayLen != ubField.count) then
            .error (.lengthMismatch ubField.id ubField.count v.arrayLen)
          else
            let bw0 := ubField.alignedOffset + writeOffset
            match ubField.type, v with
            | .dataTypeStruct, .structV subvals => do
              let r ←
                setStructFuel fuel fsRest buf (.structV subvals)
                  subvals.length true writeOffset
              setStructLoopFuel fuel (fsRest.drop r.fieldsConsumed) valsRest
                (fieldIndex + 1 + r.fieldsConsumed)
                (allowance - 1 - r.fieldsConsumed) r.buf writeOffset
                (bw0 + r.bytesWrittenRet) (fieldsConsumed + r.fieldsConsumed)
            | .dataTypeStruct, .structArr elems => do
              let numF := structArrElemNumFields elems
              let (b, _, bwField, extraConsumed) ←
                setStructArrLoopFuel fuel fsRest elems 0 elems.length numF 0
                  buf bw0 0
              setStructLoopFuel fuel (fsRest.drop extraConsumed) valsRest
                (fieldIndex + 1 + extraConsumed)
                (allowance - 1 - extraConsumed) b writeOffset bwField
                (fieldsConsumed + extraConsumed)
            | t, v' => do
              let (b, c) ← writeUniformField buf bw0 fieldIndex t v'
              setStructLoopFuel fuel fsRest valsRest (fieldIndex + 1)
                (allowance - 1) b writeOffset c fieldsConsumed

/-- The struct-array loop of `setStruct`: serializes element `i` of a
`[]struct` value at `writeOffset = offset * i`, where `offset` is the
16-padded size computed from the first element (and, while it is still
0, recomputed and the consumed-field/total-size accounting re-applied —
exactly as in the source). -/
def setStructArrLoopFuel (fuel : Nat) (fieldsToUse : List UniformBufferField)
    (elems : List GoValue) (i arrSize numF offset : Nat) (buf : List Nat)
    (bytesWritten : Nat) (extraConsumed : Nat) :
    Except UBError (List Nat × Nat × Nat × Nat) :=
  match fuel with
  | 0 => .error .outOfFuel
  | fuel + 1 =>
    match elems with
    | [] => .ok (buf, offset, bytesWritten, extraConsumed)
    | e :: rest => do
      let r ← setStructFuel fuel fieldsToUse buf e numF true (offset * i)
      if offset = 0 then
        let offset2 := padTo16BoundaryInt r.bytesWrittenRet
        setStructArrLoopFuel fuel fieldsToUse rest (i + 1) arrSize numF
          offset2 r.buf (bytesWritten + offset2 * arrSize)
          (extraConsumed + r.fieldsConsumed)
      else
        setStructArrLoopFuel fuel fieldsToUse rest (i + 1) arrSize numF
          offset r.buf bytesWritten extraConsumed

end

def stridedTouched (base stride payload len pos : Nat) : Bool :=
  decide (base ≤ pos ∧ pos < base + stride * len ∧ (pos - base) % stride < payload)

def writeUniformFieldTouched (bw0 : Nat) (t : ElementType) (v : GoValue)
    (pos : Nat) : Bool :=
  match t, v with
  | .dataTypeUint32, .u32 _ => stridedTouched bw0 4 4 1 pos
  | .dataTypeUint32, .u32Arr es => stridedTouched bw0 16 4 es.length pos
  | .dataTypeInt32, .i32 _ => stridedTouched bw0 4 4 1 pos
  | .dataTypeInt32, .i32Arr es => stridedTouched bw0 16 4 es.length pos
  | .dataTypeFloat32, .f32 _ => stridedTouched bw0 4 4 1 pos
  | .dataTypeFloat32, .f32Arr es => stridedTouched bw0 16 4 es.length pos
  | .dataTypeVec2, .vec2 _ => stridedTouched bw0 8 8 1 pos
  | .dataTypeVec2, .vec2Arr es => stridedTouched bw0 16 8 es.length pos
  | .dataTypeVec3, .vec3 _ => stridedTouched bw0 12 12 1 pos
  | .dataTypeVec3, .vec3Arr es => stridedTouched bw0 16 12 es.length pos
  | .dataTypeVec4, .vec4 _ => stridedTouched bw0 16 16 1 pos
  | .dataTypeVec4, .vec4Arr es => stridedTouched bw0 16 16 es.length pos
  | .dataTypeMat2, .mat2 _ => stridedTouched bw0 16 16 1 pos
  | .dataTypeMat2, .mat2Arr es => stridedTouched bw0 16 8 (2 * es.length) pos
  | .dataTypeMat3, .mat3 _ => stridedTouched bw0 36 36 1 pos
  | .dataTypeMat3, .mat3Arr es => stridedTouched bw0 16 12 (3 * es.length) pos
  | .dataTypeMat4, .mat4 _ => stridedTouched bw0 64 64 1 pos
  | .dataTypeMat4, .mat4Arr es => stridedTouched bw0 16 16 (4 * es.length) pos
  | _, _ => false

mutual

/-- Position-tracking mirror of `setStructFuel`: `true` iff serializing
`inputStruct` over this field window can write the byte at `pos`.  The
control flow (fuel, windows, cursors, evolved buffers) replays the
serializer exactly; error paths yield `false` since the frame theorem
only speaks about successful runs. -/
def setStructTouchedFuel (fuel : Nat) (fields : List UniformBufferField)
    (buf : List Nat) (inputStruct : GoValue) (maxFieldsToConsume : Nat)
    (writeOffset : Nat) (pos : Nat) : Bool :=
  match fuel with
  | 0 => false
  | fuel + 1 =>
    match fields with
    | [] => false
    | _ :: _ =>
      match inputStruct with
      | .structV vals =>
        setStructLoopTouchedFuel fuel fields vals 0 maxFieldsToConsume buf
          writeOffset 0 0 pos
      | _ => false

/-- Position-tracking mirror of the field loop `setStructLoopFuel`: a
position is touched if the current field's write region covers it or a
later iteration (running on the buffer the serializer itself produces
for this iteration) touches it. -/
def setStructLoopTouchedFuel (fuel : Nat) (fs : List UniformBufferField)
    (vals : List GoValue) (fieldIndex allowance : Nat) (buf : List Nat)
    (writeOffset bytesWritten fieldsConsumed : Nat) (pos : Nat) : Bool :=
  match fuel with
  | 0 => false
  | fuel + 1 =>
    match fs with
    | [] => false
    | ubField :: fsRest =>
      if allowance = 0 then false
      else
        match vals with
        | [] => false
        | v :: valsRest =>
          let fieldsConsumed := fieldsConsumed + 1
          if v.isArrayValue && (v.arrayLen != ubField.count) then false
          else
            let bw0 := ubField.alignedOffset + writeOffset
            match ubField.type, v with
            | .dataTypeStruct, .structV subvals =>
              (setStructTouchedFuel fuel fsRest buf (.structV subvals)
                  subvals.length writeOffset pos) ||
              (match setStructFuel fuel fsRest buf (.structV subvals)
                  subvals.length true writeOffset with
               | .error _ => false
               | .ok r =>
                 setStructLoopTouchedFuel fuel (fsRest.drop r.fieldsConsumed)
                   valsRest (fieldIndex + 1 + r.fieldsConsumed)
                   (allowance - 1 - r.fieldsConsumed) r.buf writeOffset
                   (bw0 + r.bytesWrittenRet) (fieldsConsumed + r.fieldsConsumed)
                   pos)
            | .dataTypeStruct, .structArr elems =>
              let numF := structArrElemNumFields elems
              (setStructArrTouchedFuel fuel fsRest elems 0 elems.length numF 0
                  buf bw0 0 pos) ||
              (match setStructArrLoopFuel fuel fsRest elems 0 elems.length numF
                  0 buf bw0 0 with
               | .error _ => false
               | .ok (b, _, bwField, extraConsumed) =>
                 setStructLoopTouchedFuel fuel (fsRest.drop extraConsumed)
                   valsRest (fieldIndex + 1 + extraConsumed)
                   (allowance - 1 - extraConsumed) b writeOffset bwField
                   (fieldsConsumed + extraConsumed) pos)
            | t, v' =>
              writeUniformFieldTouched bw0 t v' pos ||
              (match writeUniformField buf bw0 fieldIndex t v' with
               | .error _ => false
               | .ok (b, c) =>
                 setStructLoopTouchedFuel fuel fsRest valsRest (fieldIndex + 1)
                   (allowance - 1) b writeOffset c fieldsConsumed pos)

/-- Position-tracking mirror of the struct-array loop
`setStructArrLoopFuel`. -/
def setStructArrTouchedFuel (fuel : Nat) (fieldsToUse : List UniformBufferField)
    (elems : List GoValue) (i arrSize numF offset : Nat) (buf : List Nat)
    (bytesWritten : Nat) (extraConsumed : Nat) (pos : Nat) : Bool :=
  match fuel with
  | 0 => false
  | fuel + 1 =>
    match elems with
    | [] => false
    | e :: rest =>
      (setStructTouchedFuel fuel fieldsToUse buf e numF (offset * i) pos) ||
      (match setStructFuel fuel fieldsToUse buf e numF true (offset * i) with
       | .error _ => false
       | .ok r =>
         if offset = 0 then
           setStructArrTouchedFuel fuel fieldsToUse rest (i + 1) arrSize numF
             (padTo16BoundaryInt r.bytesWrittenRet) r.buf
             (bytesWritten + padTo16BoundaryInt r.bytesWrittenRet * arrSize)
             (extraConsumed + r.fieldsConsumed) pos
         else
           setStructArrTouchedFuel fuel fieldsToUse rest (i + 1) arrSize numF
             offset r.buf bytesWritten extraConsumed pos)

end


/-- Embedding of `UniformBuffer.SetStruct`: runs `setStruct` over the
buffer's flat fields on a fresh zero scratch buffer of the buffer's
size, with `maxFieldsToConsume = 1000000` and flushing enabled. -/
def UniformBufferSetStruct (fuel : Nat) (ub : UniformBuffer)
    (inputStruct : GoValue) : Except UBError SetStructResult :=
  setStructFuel fuel ub.fields (List.replicate ub.size 0) inputStruct
    1000000 false 0

/-- Embedding of `UniformBuffer.getField`: scan the flat field list for
the first entry with the requested id; a type conflict on that entry or
an exhausted list is fatal. -/
def getField : List UniformBufferField → Nat → ElementType →
    Except UBError UniformBufferField
  | [], fieldId, _ => .error (.lookupError fieldId)
  | f :: rest, fieldId, fieldType =>
    if f.id = fieldId then
      if f.type = fieldType then .ok f
      else .error (.getFieldTypeConflict fieldId)
    else getField rest fieldId fieldType

/-- Embedding of `UniformBuffer.SetFloat32`: locates the field and issues
a 4-byte `gl.BufferSubData` at its aligned offset; modelled as the
(offset, length) pair of that GPU write. -/
def UniformBufferSetFloat32 (ub : UniformBuffer) (fieldId : Nat) :
    Except UBError (Nat × Nat) := do
  let f ← getField ub.fields fieldId .dataTypeFloat32
  .ok (f.alignedOffset, 4)

/-- Little-endian read-back of the four bytes at offset `i`: the 32-bit
pattern a GPU-side reader reconstructs from that byte range. -/
def readU32LE (buf : List Nat) (i : Nat) : Nat :=
  buf.getD i 0 + 256 * buf.getD (i + 1) 0 + 65536 * buf.getD (i + 2) 0 +
    16777216 * buf.getD (i + 3) 0

mutual

/-- Validity of a schema node as assumed by the alignment claims: the
element type is one of the ten defined kinds, and a struct has a
non-empty subfield list. -/
def validInput : UniformBufferFieldInput → Bool
  | .mk _ t _ subs =>
    (t != .dataTypeUnknown) &&
    ((t != .dataTypeStruct) || !subs.isEmpty) &&
    validInputList subs

/-- Validity of a whole schema level. -/
def validInputList : List UniformBufferFieldInput → Bool
  | [] => true
  | f :: rest => validInput f && validInputList rest
end

/-- The required alignment boundary of a resolved field: 16 for any array
field, otherwise the type's std140 base alignment. -/
def requiredAlignment (f : UniformBufferField) : Nat :=
  if 1 < f.count then 16 else glStd140AlignmentBoundaryN f.type

/-- The schema of the C2 round-trip scenario. -/
def c2Schema : List UniformBufferFieldInput :=
  [.mk 0 .dataTypeFloat32 0 [], .mk 1 .dataTypeVec3 0 [],
   .mk 2 .dataTypeFloat32 0 [], .mk 3 .dataTypeMat2 0 []]

/-- The compiled layout the C2 schema must produce. -/
def c2Buffer : UniformBuffer :=
  ⟨80, [⟨0, 0, 1, .dataTypeFloat32⟩, ⟨1, 16, 1, .dataTypeVec3⟩,
        ⟨2, 32, 1, .dataTypeFloat32⟩, ⟨3, 48, 1, .dataTypeMat2⟩]⟩

/-- The C2 values `{0:1.5, 1:(11,22,33), 2:9.5, 3:[[6,8],[7,9]]}`, as
IEEE-754 bit patterns (0x3FC00000 = 1.5, 0x41300000 = 11, 0x41B00000 =
22, 0x42040000 = 33, 0x41180000 = 9.5, 0x40C00000 = 6, 0x41000000 = 8,
0x40E00000 = 7, 0x41100000 = 9). -/
def c2Values : GoValue :=
  .structV
    [.f32 1069547520, .vec3 ⟨1093664768, 1102053376, 1107558400⟩,
     .f32 1092091904,
     .mat2 ⟨⟨1086324736, 1090519040⟩, ⟨1088421888, 1091567616⟩⟩]

/-- The schema of the C4 struct-array scenario: a leading float, then a
`{Float32, Vec3}` struct with Count = 3. -/
def c4Schema : List UniformBufferFieldInput :=
  [.mk 9 .dataTypeFloat32 0 [],
   .mk 0 .dataTypeStruct 3
     [.mk 1 .dataTypeFloat32 0 [], .mk 2 .dataTypeVec3 0 []]]

/-- The compiled layout the C4 schema must produce: the struct sits at
offset 16 and its subfields are inlined at offsets 16 and 32. -/
def c4Buffer : UniformBuffer :=
  ⟨112, [⟨9, 0, 1, .dataTypeFloat32⟩, ⟨0, 16, 3, .dataTypeStruct⟩,
         ⟨1, 16, 1, .dataTypeFloat32⟩, ⟨2, 32, 1, .dataTypeVec3⟩]⟩

/-- Three struct instances with distinct patterns per instance. -/
def c4Values : GoValue :=
  .structV
    [.f32 100,
     .structArr
       [.structV [.f32 11, .vec3 ⟨12, 13, 14⟩],
        .structV [.f32 21, .vec3 ⟨22, 23, 24⟩],
        .structV [.f32 31, .vec3 ⟨32, 33, 34⟩]]]

/-- The schema of the C6 array-padding scenario: a float, a Vec3 (landing
at offset 16), then a `Float32` array with Count = 4. -/
def c6Schema : List UniformBufferFieldInput :=
  [.mk 0 .dataTypeFloat32 0 [], .mk 1 .dataTypeVec3 0 [],
   .mk 2 .dataTypeFloat32 4 []]

/-- The compiled layout the C6 schema must produce: the array starts at
the next 16-byte boundary, 32. -/
def c6Buffer : UniformBuffer :=
  ⟨96, [⟨0, 0, 1, .dataTypeFloat32⟩, ⟨1, 16, 1, .dataTypeVec3⟩,
        ⟨2, 32, 4, .dataTypeFloat32⟩]⟩

/-- Values for the C6 scenario. -/
def c6Values : GoValue :=
  .structV [.f32 1, .vec3 ⟨2, 3, 4⟩, .f32Arr [5, 6, 7, 8]]

/-- C7 support: byte-level behaviour of the shared four-byte store. -/
def c10WitnessOut : SetStructResult :=
  (UniformBufferSetStruct 50 c2Buffer c2Values).toOption.getD ⟨[], 0, 0, 0, none⟩

lemma getD_set_self (l : List Nat) (i a : Nat) (h : i < l.length) :
    (l.set i a).getD i 0 = a := by
  simp [List.getD_eq_getElem?_getD, List.getElem?_set_self', List.getElem?_eq_getElem, h]

lemma getD_set_ne (l : List Nat) (i j a : Nat) (h : i ≠ j) :
    (l.set i a).getD j 0 = l.getD j 0 := by
  simp [List.getD_eq_getElem?_getD, List.getElem?_set_ne h]

lemma writeWord_length (buf : List Nat) (i v : Nat) :
    (writeWord buf i v).length = buf.length := by
  simp [writeWord]

lemma writeWord_getD_outside (buf : List Nat) (i v j : Nat)
    (h : j < i ∨ i + 4 ≤ j) : (writeWord buf i v).getD j 0 = buf.getD j 0 := by
  unfold writeWord
  rw [getD_set_ne _ _ _ _ (by omega), getD_set_ne _ _ _ _ (by omega),
    getD_set_ne _ _ _ _ (by omega), getD_set_ne _ _ _ _ (by omega)]

lemma writeWord_getD0 (buf : List Nat) (i v : Nat) (h : i + 4 ≤ buf.length) :
    (writeWord buf i v).getD i 0 = v % 256 := by
  unfold writeWord
  rw [getD_set_ne _ _ _ _ (by omega), getD_set_ne _ _ _ _ (by omega),
    getD_set_ne _ _ _ _ (by omega), getD_set_self _ _ _ (by omega)]

lemma writeWord_getD1 (buf : List Nat) (i v : Nat) (h : i + 4 ≤ buf.length) :
    (writeWord buf i v).getD (i + 1) 0 = v / 256 % 256 := by
  unfold writeWord
  rw [getD_set_ne _ _ _ _ (by omega), getD_set_ne _ _ _ _ (by omega),
    getD_set_self _ _ _ (by simp; omega)]

lemma writeWord_getD2 (buf : List Nat) (i v : Nat) (h : i + 4 ≤ buf.length) :
    (writeWord buf i v).getD (i + 2) 0 = v / 65536 % 256 := by
  unfold writeWord
  rw [getD_set_ne _ _ _ _ (by omega),
    getD_set_self _ _ _ (by simp; omega)]

lemma writeWord_getD3 (buf : List Nat) (i v : Nat) (h : i + 4 ≤ buf.length) :
    (writeWord buf i v).getD (i + 3) 0 = v / 16777216 % 256 := by
  unfold writeWord
  rw [getD_set_self _ _ _ (by simp; omega)]

theorem c7_write_primitives :
    ∀ buf cursor v,
      (cursor + 4 ≤ buf.length →
        Write32BitIntegerToByteBuf buf cursor v =
          .ok (writeWord buf cursor v, cursor + 4) ∧
        WriteF32ToByteBuf buf cursor v =
          .ok (writeWord buf cursor v, cursor + 4) ∧
        (writeWord buf cursor v).length = buf.length ∧
        (writeWord buf cursor v).getD cursor 0 = v % 256 ∧
        (writeWord buf cursor v).getD (cursor + 1) 0 = v / 256 % 256 ∧
        (writeWord buf cursor v).getD (cursor + 2) 0 = v / 65536 % 256 ∧
        (writeWord buf cursor v).getD (cursor + 3) 0 = v / 16777216 % 256 ∧
        (∀ j, j < cursor ∨ cursor + 4 ≤ j →
          (writeWord buf cursor v).getD j 0 = buf.getD j 0)) ∧
      (buf.length < cursor + 4 →
        Write32BitIntegerToByteBuf buf cursor v =
          .error (.capacityError cursor buf.length) ∧
        WriteF32ToByteBuf buf cursor v =
          .error (.capacityError cursor buf.length)) := by
  intro buf cursor v
  constructor
  · intro h
    refine ⟨?_, ?_, writeWord_length buf cursor v, writeWord_getD0 buf cursor v h,
      writeWord_getD1 buf cursor v h, writeWord_getD2 buf cursor v h,
      writeWord_getD3 buf cursor v h,
      fun j hj => writeWord_getD_outside buf cursor v j hj⟩
    · simp [Write32BitIntegerToByteBuf, h]
    · simp [WriteF32ToByteBuf, h]
  · intro h
    constructor
    · simp [Write32BitIntegerToByteBuf]
      omega
    · simp [WriteF32ToByteBuf]
      omega

theorem c7_write_primitives_witness :
    Write32BitIntegerToByteBuf [9, 9, 9, 9, 9, 9, 9, 9] 2 16909060 =
      .ok (writeWord [9, 9, 9, 9, 9, 9, 9, 9] 2 16909060, 6) ∧
    WriteF32ToByteBuf [9, 9, 9] 2 16909060 = .error (.capacityError 2 3) :=
  ⟨((c7_write_primitives [9, 9, 9, 9, 9, 9, 9, 9] 2 16909060).1 (by decide)).1,
   ((c7_write_primitives [9, 9, 9] 2 16909060).2 (by decide)).2⟩

/-- With the empty id-to-type map the compiler loop actually runs on (the
map is allocated and queried but never inserted into), the only possible
failures are fuel exhaustion and the unknown-type assert — never the
duplicate-Id `schemaError`. -/
lemma addLoop_error_cases (fuel : Nat) : ∀ start fields cursor e,
    addUniformBufferFieldsToArrayLoop fuel start fields cursor [] = .error e →
    e = .outOfFuel ∨ e = .unknownTypeError := by
  induction fuel with
  | zero =>
    intro start fields cursor e h
    simp only [addUniformBufferFieldsToArrayLoop] at h
    exact Or.inl (Except.error.inj h).symm
  | succ fuel ih =>
    intro start fields cursor e h
    match fields with
    | [] => simp [addUniformBufferFieldsToArrayLoop] at h
    | .mk fid fty fcnt fsubs :: rest =>
      simp only [addUniformBufferFieldsToArrayLoop, List.lookup, bind, Except.bind,
        pure, Except.pure, Option.isSome, Bool.false_eq_true, if_false] at h
      split at h
      all_goals try split at h
      all_goals try split at h
      all_goals try split at h
      all_goals try split at h
      all_goals try split at h
      all_goals first
        | exact Except.noConfusion h
        | (rename_i heq
           injection h with h2
           subst h2
           first
             | exact ih _ _ _ _ heq
             | (cases fty <;> simp_all [glStd140AlignmentBoundary]))

/-- C1: the claim fails on the code.  `addUniformBufferFieldsToArray`
allocates `fieldIdToTypeMap` and queries it for the duplicate-Id assert,
but never inserts into it, so the assert can never fire: compiling the
schema `[{Id:0,Float32},{Id:0,Vec3}]`, which reuses Id 0 with two
different types at the same level, succeeds and returns a complete
two-field layout of size 32 instead of failing with a `SchemaError`;
moreover no schema at all can make compilation return a `schemaError`. -/
theorem c1_duplicate_id_compiles :
    (NewUniformBuffer 64
        [.mk 0 .dataTypeFloat32 0 [], .mk 0 .dataTypeVec3 0 []] =
      .ok ⟨32, [⟨0, 0, 1, .dataTypeFloat32⟩, ⟨0, 16, 1, .dataTypeVec3⟩]⟩) ∧
    ∀ fuel fields fid,
      NewUniformBuffer fuel fields ≠ .error (.schemaError fid) := by
  refine ⟨by rfl, ?_⟩
  intro fuel fields fid h
  by_cases hemp : fields.isEmpty
  · simp [NewUniformBuffer, addUniformBufferFieldsToArray, hemp, bind,
      Except.bind] at h
  · simp only [NewUniformBuffer, addUniformBufferFieldsToArray, hemp,
      Bool.false_eq_true, if_false, bind, Except.bind] at h
    split at h
    · rename_i heq
      injection h with h2
      rcases addLoop_error_cases _ _ _ _ _ heq with h3 | h3 <;> simp [h3] at h2
    · exact Except.noConfusion h


/-- Witness for C1: the universal no-schemaError conjunct applied at the
duplicate-Id schema itself. -/
theorem c1_duplicate_id_compiles_witness :
    NewUniformBuffer 64 [.mk 0 .dataTypeFloat32 0 [], .mk 0 .dataTypeVec3 0 []] ≠
      .error (.schemaError 0) :=
  c1_duplicate_id_compiles.2 64
    [.mk 0 .dataTypeFloat32 0 [], .mk 0 .dataTypeVec3 0 []] 0

/-- C2: compiling the schema `[{0,Float32},{1,Vec3},{2,Float32},{3,Mat2}]`
yields aligned offsets 0/16/32/48 and total size 80, and serializing the
values `{0:1.5, 1:(11,22,33), 2:9.5, 3:[[6,8],[7,9]]}` writes, at exactly
those offsets, byte ranges whose 4-byte little-endian read-back
reproduces every input bit pattern (Vec3 as three consecutive
components, Mat2 column by column). -/
theorem c2_round_trip :
    NewUniformBuffer 64 c2Schema = .ok c2Buffer ∧
    (UniformBufferSetStruct 64 c2Buffer c2Values).map
      (fun out =>
        (readU32LE out.buf 0,
         (readU32LE out.buf 16, readU32LE out.buf 20, readU32LE out.buf 24),
         readU32LE out.buf 32,
         (readU32LE out.buf 48, readU32LE out.buf 52),
         (readU32LE out.buf 56, readU32LE out.buf 60))) =
      .ok (1069547520,
           (1093664768, 1102053376, 1107558400),
           1092091904,
           (1086324736, 1090519040),
           (1088421888, 1091567616)) := by
  exact ⟨by rfl, by rfl⟩

/-- C4: compiling a `{Float32,Vec3}` struct with Count = 3 (here at base
offset 16, behind a leading float) advances the cursor by 32·3 — total
size 112 — and serializing writes struct instance k at base + 32·k: the
instance floats land at 16/48/80 and the instance Vec3s at 32/64/96,
the 32-byte stride being computed from the first element and reused. -/
theorem c4_struct_array_stride :
    NewUniformBuffer 64 c4Schema = .ok c4Buffer ∧
    (UniformBufferSetStruct 64 c4Buffer c4Values).map
      (fun out =>
        ((readU32LE out.buf 16, readU32LE out.buf 32, readU32LE out.buf 36,
          readU32LE out.buf 40),
         (readU32LE out.buf 48, readU32LE out.buf 64, readU32LE out.buf 68,
          readU32LE out.buf 72),
         (readU32LE out.buf 80, readU32LE out.buf 96, readU32LE out.buf 100,
          readU32LE out.buf 104))) =
      .ok ((11, 12, 13, 14), (21, 22, 23, 24), (31, 32, 33, 34)) := by
  exact ⟨by rfl, by rfl⟩

/-- C6: a Float32 field with Count = 4 declared right after a Vec3 at
offset 16 is aligned to the next 16-byte boundary, offset 32, and its
four elements are written at offsets 32/48/64/80 — a 16-byte stride per
element despite the 4-byte payload. -/
theorem c6_array_padding :
    NewUniformBuffer 64 c6Schema = .ok c6Buffer ∧
    (UniformBufferSetStruct 64 c6Buffer c6Values).map
      (fun out =>
        (readU32LE out.buf 32, readU32LE out.buf 48, readU32LE out.buf 64,
         readU32LE out.buf 80)) =
      .ok (5, 6, 7, 8) := by
  exact ⟨by rfl, by rfl⟩

/-- C8: an empty schema compiles to total size 0 with no fields;
serializing it returns immediately with nothing written and no flush;
and, in general, any `setStruct` call whose final write cursor is zero
performs no flush (hands nothing to the GL buffer sink). -/
theorem c8_empty_schema_no_flush :
    (∀ fuel, NewUniformBuffer fuel [] = .ok ⟨0, []⟩) ∧
    (∀ fuel v, 1 ≤ fuel →
      UniformBufferSetStruct fuel ⟨0, []⟩ v = .ok ⟨[], 0, 0, 0, none⟩) ∧
    (∀ fuel fields buf v maxF obw wo out,
      setStructFuel fuel fields buf v maxF obw wo = .ok out →
      out.bytesWrittenAbs = 0 → out.flush = none) := by
  refine ⟨fun fuel => rfl, ?_, ?_⟩
  · intro fuel v h
    match fuel, h with
    | fuel + 1, _ =>
      unfold UniformBufferSetStruct
      rw [setStructFuel.eq_def]
      rfl
  · intro fuel fields buf v maxF obw wo out h hz
    match fuel with
    | 0 =>
      rw [setStructFuel.eq_def] at h
      exact Except.noConfusion h
    | fuel + 1 =>
      match fields with
      | [] =>
        rw [setStructFuel.eq_def] at h
        cases h
        rfl
      | f0 :: fs =>
        match v with
        | .structV vals =>
          rw [setStructFuel.eq_def] at h
          simp only [bind, Except.bind] at h
          split at h
          · exact Except.noConfusion h
          · split at h
            · cases h
              rfl
            · cases h
              rename_i hbw
              simp only at hz
              exact absurd hz hbw
        | .u32 a => rw [setStructFuel.eq_def] at h; exact Except.noConfusion h
        | .i32 a => rw [setStructFuel.eq_def] at h; exact Except.noConfusion h
        | .f32 a => rw [setStructFuel.eq_def] at h; exact Except.noConfusion h
        | .vec2 a => rw [setStructFuel.eq_def] at h; exact Except.noConfusion h
        | .vec3 a => rw [setStructFuel.eq_def] at h; exact Except.noConfusion h
        | .vec4 a => rw [setStructFuel.eq_def] at h; exact Except.noConfusion h
        | .mat2 a => rw [setStructFuel.eq_def] at h; exact Except.noConfusion h
        | .mat3 a => rw [setStructFuel.eq_def] at h; exact Except.noConfusion h
        | .mat4 a => rw [setStructFuel.eq_def] at h; exact Except.noConfusion h
        | .u32Arr a => rw [setStructFuel.eq_def] at h; exact Except.noConfusion h
        | .i32Arr a => rw [setStructFuel.eq_def] at h; exact Except.noConfusion h
        | .f32Arr a => rw [setStructFuel.eq_def] at h; exact Except.noConfusion h
        | .vec2Arr a => rw [setStructFuel.eq_def] at h; exact Except.noConfusion h
        | .vec3Arr a => rw [setStructFuel.eq_def] at h; exact Except.noConfusion h
        | .vec4Arr a => rw [setStructFuel.eq_def] at h; exact Except.noConfusion h
        | .mat2Arr a => rw [setStructFuel.eq_def] at h; exact Except.noConfusion h
        | .mat3Arr a => rw [setStructFuel.eq_def] at h; exact Except.noConfusion h
        | .mat4Arr a => rw [setStructFuel.eq_def] at h; exact Except.noConfusion h
        | .structArr a => rw [setStructFuel.eq_def] at h; exact Except.noConfusion h

/-- Witness for C8 at concrete inputs: serializing the empty layout at
fuel 1 flushes nothing, and the zero-cursor run indeed reports no flush. -/
theorem c8_empty_schema_no_flush_witness :
    UniformBufferSetStruct 1 ⟨0, []⟩ (.structV []) = .ok ⟨[], 0, 0, 0, none⟩ ∧
    (SetStructResult.mk [] 0 0 0 none).flush = none :=
  ⟨c8_empty_schema_no_flush.2.1 1 (.structV []) (by decide),
   c8_empty_schema_no_flush.2.2 1 [] [] (.structV []) 1000000 false 0
     ⟨[], 0, 0, 0, none⟩ (by rfl) (by rfl)⟩

/-- C9: `getField` scans the flat field list in declaration order and
resolves a (fieldId, fieldType) request to the first field bearing that
Id: with no such field it fails with the lookup error, and when the
first matching field's type differs from the requested one it fails with
the reuse assert; consequently a duplicated Id always resolves to the
earliest-declared field, and `SetFloat32` issues its 4-byte GPU write at
exactly that earliest field's aligned offset. -/
theorem c9_getField_first_match :
    (∀ fields fieldId fieldType, (∀ g ∈ fields, g.id ≠ fieldId) →
      getField fields fieldId fieldType = .error (.lookupError fieldId)) ∧
    (∀ pre f post fieldId fieldType,
      (∀ g ∈ pre, g.id ≠ fieldId) → f.id = fieldId →
      getField (pre ++ f :: post) fieldId fieldType =
        if f.type = fieldType then .ok f
        else .error (.getFieldTypeConflict fieldId)) ∧
    (∀ ub pre f post fieldId, ub.fields = pre ++ f :: post →
      (∀ g ∈ pre, g.id ≠ fieldId) → f.id = fieldId →
      f.type = .dataTypeFloat32 →
      UniformBufferSetFloat32 ub fieldId = .ok (f.alignedOffset, 4)) := by
  have h1 : ∀ fields fieldId fieldType,
      (∀ g ∈ fields, g.id ≠ fieldId) →
      getField fields fieldId fieldType = .error (.lookupError fieldId) := by
    intro fields fieldId fieldType h
    induction fields with
    | nil => rfl
    | cons g rest ih =>
      have hg : g.id ≠ fieldId := h g (List.mem_cons_self g rest)
      simp only [getField, if_neg hg]
      exact ih fun x hx => h x (List.mem_cons_of_mem g hx)
  have h2 : ∀ pre (f : UniformBufferField) post fieldId fieldType,
      (∀ g ∈ pre, g.id ≠ fieldId) → f.id = fieldId →
      getField (pre ++ f :: post) fieldId fieldType =
        if f.type = fieldType then .ok f
        else .error (.getFieldTypeConflict fieldId) := by
    intro pre f post fieldId fieldType hpre hf
    induction pre with
    | nil => simp only [List.nil_append, getField, if_pos hf]
    | cons g rest ih =>
      have hg : g.id ≠ fieldId := hpre g (List.mem_cons_self g rest)
      simp only [List.cons_append, getField, if_neg hg]
      exact ih fun x hx => hpre x (List.mem_cons_of_mem g hx)
  refine ⟨h1, h2, ?_⟩
  intro ub pre f post fieldId hsplit hpre hf hty
  simp only [UniformBufferSetFloat32, hsplit, bind, Except.bind,
    h2 pre f post fieldId .dataTypeFloat32 hpre hf, if_pos hty]

/-- Witness for C9 at a concrete layout with a duplicated Id 7: the
lookup resolves to the earliest field (offset 16, Float32), the
type-conflicting request fails, the missing Id fails, and `SetFloat32`
writes at offset 16. -/
theorem c9_getField_first_match_witness :
    getField [⟨5, 0, 1, .dataTypeVec3⟩, ⟨7, 16, 1, .dataTypeFloat32⟩,
              ⟨7, 32, 1, .dataTypeVec3⟩] 7 .dataTypeFloat32 =
      .ok ⟨7, 16, 1, .dataTypeFloat32⟩ ∧
    getField [⟨5, 0, 1, .dataTypeVec3⟩, ⟨7, 16, 1, .dataTypeFloat32⟩,
              ⟨7, 32, 1, .dataTypeVec3⟩] 7 .dataTypeVec3 =
      .error (.getFieldTypeConflict 7) ∧
    getField [⟨5, 0, 1, .dataTypeVec3⟩] 7 .dataTypeFloat32 =
      .error (.lookupError 7) ∧
    UniformBufferSetFloat32
      ⟨48, [⟨5, 0, 1, .dataTypeVec3⟩, ⟨7, 16, 1, .dataTypeFloat32⟩,
            ⟨7, 32, 1, .dataTypeVec3⟩]⟩ 7 = .ok (16, 4) := by
  refine ⟨?_, ?_, ?_, ?_⟩
  · have h := c9_getField_first_match.2.1 [⟨5, 0, 1, .dataTypeVec3⟩]
      ⟨7, 16, 1, .dataTypeFloat32⟩ [⟨7, 32, 1, .dataTypeVec3⟩] 7
      .dataTypeFloat32 (by decide) (by rfl)
    simpa using h
  · have h := c9_getField_first_match.2.1 [⟨5, 0, 1, .dataTypeVec3⟩]
      ⟨7, 16, 1, .dataTypeFloat32⟩ [⟨7, 32, 1, .dataTypeVec3⟩] 7
      .dataTypeVec3 (by decide) (by rfl)
    simpa using h
  · exact c9_getField_first_match.1 [⟨5, 0, 1, .dataTypeVec3⟩] 7
      .dataTypeFloat32 (by decide)
  · exact c9_getField_first_match.2.2
      ⟨48, [⟨5, 0, 1, .dataTypeVec3⟩, ⟨7, 16, 1, .dataTypeFloat32⟩,
            ⟨7, 32, 1, .dataTypeVec3⟩]⟩
      [⟨5, 0, 1, .dataTypeVec3⟩] ⟨7, 16, 1, .dataTypeFloat32⟩
      [⟨7, 32, 1, .dataTypeVec3⟩] 7 (by rfl) (by decide) (by rfl) (by rfl)

lemma writeUniformField_mismatch (buf : List Nat) (bw0 fieldIndex : Nat)
    (t : ElementType) (v : GoValue)
    (hm : uniformFieldTypeMatches t v = false) (ht : t ≠ .dataTypeUnknown) :
    writeUniformField buf bw0 fieldIndex t v =
      .error (.typeMismatch fieldIndex t) := by
  cases t <;> cases v <;>
    simp_all [uniformFieldTypeMatches, writeUniformField]

/-- C5: serializing a Vec4 array field with a 3-element input fails with
the length-mismatch assert, and serializing a Float32 field with a
uint32-typed value fails with the type-mismatch panic; in general, the
field loop fails with `lengthMismatch` whenever the supplied slice's
length differs from the declared Count of an array field (checked before
anything else), and with `typeMismatch` (reporting the field index and
the expected type) whenever the supplied value's runtime type does not
match the declared `ElementType` (length check passing). -/
theorem c5_mismatch_errors :
    (NewUniformBuffer 64 [.mk 0 .dataTypeVec4 4 []] =
        .ok ⟨64, [⟨0, 0, 4, .dataTypeVec4⟩]⟩ ∧
      UniformBufferSetStruct 64 ⟨64, [⟨0, 0, 4, .dataTypeVec4⟩]⟩
        (.structV [.vec4Arr [⟨1, 2, 3, 4⟩, ⟨5, 6, 7, 8⟩, ⟨9, 10, 11, 12⟩]]) =
        .error (.lengthMismatch 0 4 3)) ∧
    (NewUniformBuffer 64 [.mk 0 .dataTypeFloat32 0 []] =
        .ok ⟨4, [⟨0, 0, 1, .dataTypeFloat32⟩]⟩ ∧
      UniformBufferSetStruct 64 ⟨4, [⟨0, 0, 1, .dataTypeFloat32⟩]⟩
        (.structV [.u32 7]) = .error (.typeMismatch 0 .dataTypeFloat32)) ∧
    (∀ fuel ubField fsRest v valsRest fieldIndex allowance buf wo bw fc,
      1 ≤ fuel → 1 ≤ allowance → 1 < ubField.count →
      v.isArrayValue = true → v.arrayLen ≠ ubField.count →
      setStructLoopFuel fuel (ubField :: fsRest) (v :: valsRest) fieldIndex
          allowance buf wo bw fc =
        .error (.lengthMismatch ubField.id ubField.count v.arrayLen)) ∧
    (∀ fuel ubField fsRest v valsRest fieldIndex allowance buf wo bw fc,
      1 ≤ fuel → 1 ≤ allowance →
      (v.isArrayValue = true → v.arrayLen = ubField.count) →
      ubField.type ≠ .dataTypeUnknown →
      uniformFieldTypeMatches ubField.type v = false →
      setStructLoopFuel fuel (ubField :: fsRest) (v :: valsRest) fieldIndex
          allowance buf wo bw fc =
        .error (.typeMismatch fieldIndex ubField.type)) := by
  refine ⟨⟨by rfl, by rfl⟩, ⟨by rfl, by rfl⟩, ?_, ?_⟩
  · intro fuel ubField fsRest v valsRest fieldIndex allowance buf wo bw fc
      hfuel hallow hcnt harr hlen
    match fuel, hfuel with
    | fuel + 1, _ =>
      rw [setStructLoopFuel.eq_def]
      dsimp only
      rw [if_neg (by omega : ¬allowance = 0)]
      rw [if_pos (by simp [harr, bne_iff_ne, hlen])]
  · intro fuel ubField fsRest v valsRest fieldIndex allowance buf wo bw fc
      hfuel hallow hlenok hunk hm
    match fuel, hfuel with
    | fuel + 1, _ =>
      rw [setStructLoopFuel.eq_def]
      dsimp only
      rw [if_neg (by omega : ¬allowance = 0)]
      rw [if_neg (by
        simp only [Bool.and_eq_true, bne_iff_ne, ne_eq, not_and, not_not]
        intro ha
        exact hlenok ha)]
      split
      all_goals
        try (rw [show ubField.type = ElementType.dataTypeStruct from by assumption] at hm
             simp [uniformFieldTypeMatches] at hm)
      rw [writeUniformField_mismatch _ _ _ _ _ hm hunk]
      rfl


/-- Witness for C5 at concrete inputs: a Count-4 Vec4 field with a
1-element slice hits the length assert, and a Float32 field given a
uint32 hits the type-mismatch panic, via the general conjuncts of the
theorem. -/
theorem c5_mismatch_errors_witness :
    setStructLoopFuel 1 [⟨0, 0, 4, .dataTypeVec4⟩] [.vec4Arr [⟨1, 2, 3, 4⟩]]
        0 9 (List.replicate 64 0) 0 0 0 = .error (.lengthMismatch 0 4 1) ∧
    setStructLoopFuel 1 [⟨0, 0, 1, .dataTypeFloat32⟩] [.u32 7] 0 9
        (List.replicate 4 0) 0 0 0 = .error (.typeMismatch 0 .dataTypeFloat32) :=
  ⟨c5_mismatch_errors.2.2.1 1 ⟨0, 0, 4, .dataTypeVec4⟩ [] (.vec4Arr [⟨1, 2, 3, 4⟩])
      [] 0 9 (List.replicate 64 0) 0 0 0 (by decide) (by decide) (by decide)
      (by rfl) (by decide),
   c5_mismatch_errors.2.2.2 1 ⟨0, 0, 1, .dataTypeFloat32⟩ [] (.u32 7) [] 0 9
      (List.replicate 4 0) 0 0 0 (by decide) (by decide)
      (fun h => Bool.noConfusion h) (by decide) (by rfl)⟩

lemma u16_lt (n : Nat) : u16 n < 65536 := by
  unfold u16
  omega

lemma u16_add_mod16 {start ac : Nat} (hs : start % 16 = 0) (hac : ac % 16 = 0) :
    u16 (start + ac) % 16 = 0 := by
  unfold u16
  omega

lemma mod4_of_mod_boundary {x b : Nat} (hb : b = 4 ∨ b = 8 ∨ b = 16)
    (h : x % b = 0) : x % 4 = 0 := by
  rcases hb with rfl | rfl | rfl <;> omega

lemma u16_add_mod_boundary {start ac b : Nat} (hb : b = 4 ∨ b = 8 ∨ b = 16)
    (hs : start % 16 = 0) (hac : ac % b = 0) : u16 (start + ac) % b = 0 := by
  unfold u16
  rcases hb with rfl | rfl | rfl <;> omega

lemma alignCursor_facts (cursor b : Nat) (hb : b = 4 ∨ b = 8 ∨ b = 16)
    (hc : cursor % 4 = 0) (hclt : cursor < 65536) :
    alignCursor cursor b % b = 0 ∧ alignCursor cursor b < 65536 := by
  simp only [alignCursor, u16]
  rcases hb with rfl | rfl | rfl <;> (split <;> constructor <;> omega)

lemma nonStructAdvance_facts (off b count mult start : Nat)
    (hb : b = 4 ∨ b = 8 ∨ b = 16) (hoff : off % 4 = 0) (hst : start % 16 = 0) :
    nonStructAdvance off b count mult start % 4 = 0 ∧
    nonStructAdvance off b count mult start < 65536 := by
  have h2 : b * count % 65536 % 4 = 0 := by
    rcases hb with rfl | rfl | rfl <;> omega
  have h3 : b * count % 65536 * mult % 4 = 0 := by
    rw [Nat.mul_mod, h2]
    simp
  unfold nonStructAdvance u16sub u16
  constructor <;> omega

lemma structAdvance_facts (ac subTotal count : Nat) (hac : ac % 4 = 0) :
    structAdvance ac subTotal count % 4 = 0 ∧
    structAdvance ac subTotal count < 65536 := by
  have h1 : padTo16BoundaryU16 (subTotal % 65536) % 16 = 0 := by
    simp only [padTo16BoundaryU16, u16]
    split <;> omega
  have h2 : padTo16BoundaryU16 (subTotal % 65536) * count % 4 = 0 := by
    rw [Nat.mul_mod]
    have h4 : padTo16BoundaryU16 (subTotal % 65536) % 4 = 0 := by omega
    rw [h4]
    simp
  unfold structAdvance u16
  constructor <;> omega

lemma validInputList_cons {f : UniformBufferFieldInput}
    {rest : List UniformBufferFieldInput}
    (h : validInputList (f :: rest) = true) :
    validInput f = true ∧ validInputList rest = true := by
  simpa [validInputList, Bool.and_eq_true] using h

lemma validInput_mk {fid fcnt : Nat} {fty : ElementType}
    {fsubs : List UniformBufferFieldInput}
    (h : validInput (.mk fid fty fcnt fsubs) = true) :
    fty ≠ .dataTypeUnknown ∧ validInputList fsubs = true := by
  simp only [validInput, Bool.and_eq_true, bne_iff_ne, ne_eq] at h
  exact ⟨h.1.1, h.2⟩

lemma validBoundary (fty : ElementType) (h : fty ≠ .dataTypeUnknown) :
    glStd140AlignmentBoundary fty = .ok (glStd140AlignmentBoundaryN fty) ∧
    (glStd140AlignmentBoundaryN fty = 4 ∨ glStd140AlignmentBoundaryN fty = 8 ∨
      glStd140AlignmentBoundaryN fty = 16) := by
  cases fty <;> simp_all [glStd140AlignmentBoundary, glStd140AlignmentBoundaryN]

lemma requiredAlignment_one (fid off : Nat) (fty : ElementType) :
    requiredAlignment ⟨fid, off, 1, fty⟩ = glStd140AlignmentBoundaryN fty := by
  simp [requiredAlignment]

lemma requiredAlignment_many (fid off cnt : Nat) (fty : ElementType)
    (h : 1 < cnt) : requiredAlignment ⟨fid, off, cnt, fty⟩ = 16 := by
  simp [requiredAlignment, h]

lemma addLoop_alignment (fuel : Nat) : ∀ fields start cursor fs total,
    validInputList fields = true → start % 16 = 0 → start < 65536 →
    cursor % 4 = 0 → cursor < 65536 →
    addUniformBufferFieldsToArrayLoop fuel start fields cursor [] = .ok (fs, total) →
    (∀ f ∈ fs, f.alignedOffset % requiredAlignment f = 0) ∧
    total % 4 = 0 ∧ total < 65536 := by
  induction fuel with
  | zero =>
    intro fields start cursor fs total hv hs hslt hc hclt h
    simp only [addUniformBufferFieldsToArrayLoop] at h
    exact Except.noConfusion h
  | succ fuel ih =>
    intro fields start cursor fs total hv hs hslt hc hclt h
    match fields with
    | [] =>
      simp only [addUniformBufferFieldsToArrayLoop] at h
      injection h with h2
      injection h2 with h3 h4
      subst h3
      subst h4
      exact ⟨by simp, hc, hclt⟩
    | .mk fid fty fcnt fsubs :: rest =>
      obtain ⟨hvf, hvrest⟩ := validInputList_cons hv
      obtain ⟨hne, hvsubs⟩ := validInput_mk hvf
      simp only [addUniformBufferFieldsToArrayLoop, List.lookup, bind, Except.bind,
        pure, Except.pure, Option.isSome, Bool.false_eq_true, if_false] at h
      split at h
      all_goals try split at h
      all_goals try split at h
      all_goals try split at h
      all_goals try split at h
      all_goals try split at h
      all_goals try exact Except.noConfusion h
      all_goals try omega
      case isTrue.isTrue.h_2.isTrue.h_2.h_2 =>
        rename_i hfc h11 xB vB hbound hstruct xS vS heqsub xR vR heqrest
        subst hstruct
        obtain rfl : vB = 16 := by
          simp [glStd140AlignmentBoundary] at hbound
          omega
        obtain ⟨hacb, haclt⟩ :=
          alignCursor_facts cursor 16 (Or.inr (Or.inr rfl)) hc hclt
        have hac4 : alignCursor cursor 16 % 4 = 0 := by omega
        have hoffb : u16 (start + alignCursor cursor 16) % 16 = 0 :=
          u16_add_mod16 hs hacb
        obtain ⟨hsubF, hsub4, hsublt⟩ :=
          ih fsubs (u16 (start + alignCursor cursor 16)) 0 vS.1 vS.2 hvsubs
            hoffb (u16_lt _) (by omega) (by omega) heqsub
        obtain ⟨hadv4, hadvlt⟩ :=
          structAdvance_facts (alignCursor cursor 16) vS.2 1 hac4
        obtain ⟨hrestF, htot4, htotlt⟩ :=
          ih rest start (structAdvance (alignCursor cursor 16) vS.2 1) vR.1
            vR.2 hvrest hs hslt hadv4 hadvlt heqrest
        injection h with h2
        injection h2 with hfs htot
        subst hfs
        subst htot
        refine ⟨?_, htot4, htotlt⟩
        intro f hf
        rcases List.mem_cons.mp hf with rfl | hf2
        · simpa [requiredAlignment, glStd140AlignmentBoundaryN,
            glStd140AlignmentBoundary] using hoffb
        · rcases List.mem_append.mp hf2 with hfa | hfb
          · exact hsubF f hfa
          · exact hrestF f hfb
      case isTrue.isTrue.h_2.isFalse.h_2 =>
        rename_i hfc h11 xB vB hbound hnst xR vR heqrest
        obtain ⟨hbeq, hbcases⟩ := validBoundary fty hne
        rw [hbound] at hbeq
        have hvB := Except.ok.inj hbeq
        have hbc : vB = 4 ∨ vB = 8 ∨ vB = 16 := by rw [hvB]; exact hbcases
        obtain ⟨hacb, haclt⟩ := alignCursor_facts cursor vB hbc hc hclt
        have hoffb : u16 (start + alignCursor cursor vB) % vB = 0 :=
          u16_add_mod_boundary hbc hs hacb
        have hoff4 : u16 (start + alignCursor cursor vB) % 4 = 0 :=
          mod4_of_mod_boundary hbc hoffb
        obtain ⟨hadv4, hadvlt⟩ :=
          nonStructAdvance_facts (u16 (start + alignCursor cursor vB)) vB 1
            (matrixColumnMultiplier fty) start hbc hoff4 hs
        obtain ⟨hrestF, htot4, htotlt⟩ :=
          ih rest start _ vR.1 vR.2 hvrest hs hslt hadv4 hadvlt heqrest
        injection h with h2
        injection h2 with hfs htot
        subst hfs
        subst htot
        refine ⟨?_, htot4, htotlt⟩
        intro f hf
        rcases List.mem_cons.mp hf with rfl | hf2
        · rw [requiredAlignment_one, ← hvB]
          exact hoffb
        · exact hrestF f hf2
      case isFalse.isTrue.h_2.isTrue.h_2.h_2 =>
        rename_i hfc hone xB vB hbound hstruct xS vS heqsub xR vR heqrest
        subst hone
        subst hstruct
        obtain rfl : vB = 16 := by
          simp [glStd140AlignmentBoundary] at hbound
          omega
        obtain ⟨hacb, haclt⟩ :=
          alignCursor_facts cursor 16 (Or.inr (Or.inr rfl)) hc hclt
        have hac4 : alignCursor cursor 16 % 4 = 0 := by omega
        have hoffb : u16 (start + alignCursor cursor 16) % 16 = 0 :=
          u16_add_mod16 hs hacb
        obtain ⟨hsubF, hsub4, hsublt⟩ :=
          ih fsubs (u16 (start + alignCursor cursor 16)) 0 vS.1 vS.2 hvsubs
            hoffb (u16_lt _) (by omega) (by omega) heqsub
        obtain ⟨hadv4, hadvlt⟩ :=
          structAdvance_facts (alignCursor cursor 16) vS.2 1 hac4
        obtain ⟨hrestF, htot4, htotlt⟩ :=
          ih rest start (structAdvance (alignCursor cursor 16) vS.2 1) vR.1
            vR.2 hvrest hs hslt hadv4 hadvlt heqrest
        injection h with h2
        injection h2 with hfs htot
        subst hfs
        subst htot
        refine ⟨?_, htot4, htotlt⟩
        intro f hf
        rcases List.mem_cons.mp hf with rfl | hf2
        · simpa [requiredAlignment, glStd140AlignmentBoundaryN,
            glStd140AlignmentBoundary] using hoffb
        · rcases List.mem_append.mp hf2 with hfa | hfb
          · exact hsubF f hfa
          · exact hrestF f hfb
      case isFalse.isTrue.h_2.isFalse.h_2 =>
        rename_i hfc hone xB vB hbound hnst xR vR heqrest
        subst hone
        obtain ⟨hbeq, hbcases⟩ := validBoundary fty hne
        rw [hbound] at hbeq
        have hvB := Except.ok.inj hbeq
        have hbc : vB = 4 ∨ vB = 8 ∨ vB = 16 := by rw [hvB]; exact hbcases
        obtain ⟨hacb, haclt⟩ := alignCursor_facts cursor vB hbc hc hclt
        have hoffb : u16 (start + alignCursor cursor vB) % vB = 0 :=
          u16_add_mod_boundary hbc hs hacb
        have hoff4 : u16 (start + alignCursor cursor vB) % 4 = 0 :=
          mod4_of_mod_boundary hbc hoffb
        obtain ⟨hadv4, hadvlt⟩ :=
          nonStructAdvance_facts (u16 (start + alignCursor cursor vB)) vB 1
            (matrixColumnMultiplier fty) start hbc hoff4 hs
        obtain ⟨hrestF, htot4, htotlt⟩ :=
          ih rest start _ vR.1 vR.2 hvrest hs hslt hadv4 hadvlt heqrest
        injection h with h2
        injection h2 with hfs htot
        subst hfs
        subst htot
        refine ⟨?_, htot4, htotlt⟩
        intro f hf
        rcases List.mem_cons.mp hf with rfl | hf2
        · rw [requiredAlignment_one, ← hvB]
          exact hoffb
        · exact hrestF f hf2
      case isFalse.isFalse.isTrue.h_2.h_2 =>
        rename_i hfc hone hstruct xS vS heqsub xR vR heqrest
        subst hstruct
        obtain ⟨hacb, haclt⟩ :=
          alignCursor_facts cursor 16 (Or.inr (Or.inr rfl)) hc hclt
        have hac4 : alignCursor cursor 16 % 4 = 0 := by omega
        have hoffb : u16 (start + alignCursor cursor 16) % 16 = 0 :=
          u16_add_mod16 hs hacb
        obtain ⟨hsubF, hsub4, hsublt⟩ :=
          ih fsubs (u16 (start + alignCursor cursor 16)) 0 vS.1 vS.2 hvsubs
            hoffb (u16_lt _) (by omega) (by omega) heqsub
        obtain ⟨hadv4, hadvlt⟩ :=
          structAdvance_facts (alignCursor cursor 16) vS.2 fcnt hac4
        obtain ⟨hrestF, htot4, htotlt⟩ :=
          ih rest start (structAdvance (alignCursor cursor 16) vS.2 fcnt) vR.1
            vR.2 hvrest hs hslt hadv4 hadvlt heqrest
        injection h with h2
        injection h2 with hfs htot
        subst hfs
        subst htot
        refine ⟨?_, htot4, htotlt⟩
        intro f hf
        rcases List.mem_cons.mp hf with rfl | hf2
        · rw [requiredAlignment_many _ _ _ _ (by omega)]
          exact hoffb
        · rcases List.mem_append.mp hf2 with hfa | hfb
          · exact hsubF f hfa
          · exact hrestF f hfb
      case isFalse.isFalse.isFalse.h_2 =>
        rename_i hfc hone hnst xR vR heqrest
        obtain ⟨hacb, haclt⟩ :=
          alignCursor_facts cursor 16 (Or.inr (Or.inr rfl)) hc hclt
        have hoffb : u16 (start + alignCursor cursor 16) % 16 = 0 :=
          u16_add_mod16 hs hacb
        have hoff4 : u16 (start + alignCursor cursor 16) % 4 = 0 := by omega
        obtain ⟨hadv4, hadvlt⟩ :=
          nonStructAdvance_facts (u16 (start + alignCursor cursor 16)) 16 fcnt
            (matrixColumnMultiplier fty) start (Or.inr (Or.inr rfl)) hoff4 hs
        obtain ⟨hrestF, htot4, htotlt⟩ :=
          ih rest start _ vR.1 vR.2 hvrest hs hslt hadv4 hadvlt heqrest
        injection h with h2
        injection h2 with hfs htot
        subst hfs
        subst htot
        refine ⟨?_, htot4, htotlt⟩
        intro f hf
        rcases List.mem_cons.mp hf with rfl | hf2
        · rw [requiredAlignment_many _ _ _ _ (by omega)]
          exact hoffb
        · exact hrestF f hf2

/-- C3: for every valid schema (every ElementType among the ten defined
kinds, structs with non-empty subfield lists), every resolved field's
AlignedOffset is a multiple of its required alignment boundary (16 for
Count > 1, otherwise the type's std140 base alignment: 4 scalars, 8
Vec2, 16 for the rest), and the returned total size is a multiple of 4 —
including under the uint16 wrap-around the compiler's cursor arithmetic
performs. -/
theorem c3_offsets_aligned (fuel : Nat) (fields : List UniformBufferFieldInput)
    (fs : List UniformBufferField) (total : Nat)
    (hv : validInputList fields = true)
    (h : addUniformBufferFieldsToArray fuel 0 fields = .ok (fs, total)) :
    (∀ f ∈ fs, f.alignedOffset % requiredAlignment f = 0) ∧ total % 4 = 0 := by
  unfold addUniformBufferFieldsToArray at h
  split at h
  · injection h with h2
    injection h2 with hfs htot
    subst hfs
    subst htot
    exact ⟨by simp, by omega⟩
  · obtain ⟨h1, h2, h3⟩ :=
      addLoop_alignment fuel fields 0 0 fs total hv (by omega) (by omega)
        (by omega) (by omega) h
    exact ⟨h1, h2⟩


/-- Witness for C3: the invariant applied to the concrete C2 schema. -/
theorem c3_offsets_aligned_witness :
    (∀ f ∈ c2Buffer.fields, f.alignedOffset % requiredAlignment f = 0) ∧
      (80 : Nat) % 4 = 0 :=
  c3_offsets_aligned 64 c2Schema c2Buffer.fields 80 (by decide) (by rfl)


lemma writeWord_getD_outside2 (buf : List Nat) (i v j : Nat)
    (h : ¬(i ≤ j ∧ j < i + 4)) : (writeWord buf i v).getD j 0 = buf.getD j 0 :=
  writeWord_getD_outside buf i v j (by omega)

lemma writeWordsWithStride_frame (vals : List Nat) : ∀ buf i stride buf2 c,
    writeWordsWithStride buf i stride vals = (buf2, c) →
    buf2.length = buf.length ∧ c = i + stride * vals.length ∧
    ∀ j, (∀ k < vals.length, ¬(i + stride * k ≤ j ∧ j < i + stride * k + 4)) →
      buf2.getD j 0 = buf.getD j 0 := by
  induction vals with
  | nil =>
    intro buf i stride buf2 c h
    injection h with h1 h2
    subst h1
    subst h2
    exact ⟨rfl, by simp, fun j _ => rfl⟩
  | cons v vs ih =>
    intro buf i stride buf2 c h
    simp only [writeWordsWithStride] at h
    obtain ⟨hlen, hcur, hframe⟩ := ih (writeWord buf i v) (i + stride) stride buf2 c h
    refine ⟨by rw [hlen, writeWord_length],
      by rw [hcur, List.length_cons, Nat.mul_succ]; omega, ?_⟩
    intro j hj
    have h0 : ¬(i ≤ j ∧ j < i + 4) := by
      have := hj 0 (by simp)
      omega
    rw [hframe j ?_, writeWord_getD_outside2 buf i v j h0]
    intro k hk
    have := hj (k + 1) (by simp; omega)
    rw [Nat.mul_succ] at this
    omega

lemma writeVec2sWithStride_frame (vals : List GVec2) : ∀ buf i stride buf2 c,
    writeVec2sWithStride buf i stride vals = (buf2, c) →
    buf2.length = buf.length ∧ c = i + stride * vals.length ∧
    ∀ j, (∀ k < vals.length, ¬(i + stride * k ≤ j ∧ j < i + stride * k + 8)) →
      buf2.getD j 0 = buf.getD j 0 := by
  induction vals with
  | nil =>
    intro buf i stride buf2 c h
    injection h with h1 h2
    subst h1
    subst h2
    exact ⟨rfl, by simp, fun j _ => rfl⟩
  | cons v vs ih =>
    intro buf i stride buf2 c h
    simp only [writeVec2sWithStride] at h
    obtain ⟨hlen, hcur, hframe⟩ := ih _ (i + stride) stride buf2 c h
    refine ⟨by rw [hlen]; simp [writeWord_length],
      by rw [hcur, List.length_cons, Nat.mul_succ]; omega, ?_⟩
    intro j hj
    have h0 : ¬(i ≤ j ∧ j < i + 8) := by
      have := hj 0 (by simp)
      omega
    rw [hframe j ?_, writeWord_getD_outside2 _ _ _ _ (by omega),
      writeWord_getD_outside2 _ _ _ _ (by omega)]
    intro k hk
    have := hj (k + 1) (by simp; omega)
    rw [Nat.mul_succ] at this
    omega

lemma writeVec3sWithStride_frame (vals : List GVec3) : ∀ buf i stride buf2 c,
    writeVec3sWithStride buf i stride vals = (buf2, c) →
    buf2.length = buf.length ∧ c = i + stride * vals.length ∧
    ∀ j, (∀ k < vals.length, ¬(i + stride * k ≤ j ∧ j < i + stride * k + 12)) →
      buf2.getD j 0 = buf.getD j 0 := by
  induction vals with
  | nil =>
    intro buf i stride buf2 c h
    injection h with h1 h2
    subst h1
    subst h2
    exact ⟨rfl, by simp, fun j _ => rfl⟩
  | cons v vs ih =>
    intro buf i stride buf2 c h
    simp only [writeVec3sWithStride] at h
    obtain ⟨hlen, hcur, hframe⟩ := ih _ (i + stride) stride buf2 c h
    refine ⟨by rw [hlen]; simp [writeWord_length],
      by rw [hcur, List.length_cons, Nat.mul_succ]; omega, ?_⟩
    intro j hj
    have h0 : ¬(i ≤ j ∧ j < i + 12) := by
      have := hj 0 (by simp)
      omega
    rw [hframe j ?_, writeWord_getD_outside2 _ _ _ _ (by omega),
      writeWord_getD_outside2 _ _ _ _ (by omega),
      writeWord_getD_outside2 _ _ _ _ (by omega)]
    intro k hk
    have := hj (k + 1) (by simp; omega)
    rw [Nat.mul_succ] at this
    omega

lemma writeVec4sWithStride_frame (vals : List GVec4) : ∀ buf i stride buf2 c,
    writeVec4sWithStride buf i stride vals = (buf2, c) →
    buf2.length = buf.length ∧ c = i + stride * vals.length ∧
    ∀ j, (∀ k < vals.length, ¬(i + stride * k ≤ j ∧ j < i + stride * k + 16)) →
      buf2.getD j 0 = buf.getD j 0 := by
  induction vals with
  | nil =>
    intro buf i stride buf2 c h
    injection h with h1 h2
    subst h1
    subst h2
    exact ⟨rfl, by simp, fun j _ => rfl⟩
  | cons v vs ih =>
    intro buf i stride buf2 c h
    simp only [writeVec4sWithStride] at h
    obtain ⟨hlen, hcur, hframe⟩ := ih _ (i + stride) stride buf2 c h
    refine ⟨by rw [hlen]; simp [writeWord_length],
      by rw [hcur, List.length_cons, Nat.mul_succ]; omega, ?_⟩
    intro j hj
    have h0 : ¬(i ≤ j ∧ j < i + 16) := by
      have := hj 0 (by simp)
      omega
    rw [hframe j ?_, writeWord_getD_outside2 _ _ _ _ (by omega),
      writeWord_getD_outside2 _ _ _ _ (by omega),
      writeWord_getD_outside2 _ _ _ _ (by omega),
      writeWord_getD_outside2 _ _ _ _ (by omega)]
    intro k hk
    have := hj (k + 1) (by simp; omega)
    rw [Nat.mul_succ] at this
    omega



lemma stridedTouched_false {base stride payload len j : Nat}
    (hps : payload ≤ stride)
    (h : stridedTouched base stride payload len j = false) :
    ∀ k < len, ¬(base + stride * k ≤ j ∧ j < base + stride * k + payload) := by
  intro k hk hcon
  rw [stridedTouched, decide_eq_false_iff_not] at h
  apply h
  have h1 : stride * (k + 1) ≤ stride * len := Nat.mul_le_mul_left _ hk
  rw [Nat.mul_succ] at h1
  refine ⟨by omega, by omega, ?_⟩
  have h2 : j - base = (j - base - stride * k) + stride * k := by omega
  rw [h2, Nat.add_mul_mod_self_left, Nat.mod_eq_of_lt (by omega)]
  omega

lemma Write32BitIntegerToByteBuf_frame {buf : List Nat} {i v : Nat}
    {buf2 : List Nat} {c : Nat}
    (h : Write32BitIntegerToByteBuf buf i v = .ok (buf2, c)) :
    buf2.length = buf.length ∧
    ∀ j, stridedTouched i 4 4 1 j = false → buf2.getD j 0 = buf.getD j 0 := by
  unfold Write32BitIntegerToByteBuf at h
  split at h
  · injection h with h1
    injection h1 with hb hc
    subst hb
    refine ⟨writeWord_length buf i v, ?_⟩
    intro j hj
    have := stridedTouched_false (by omega) hj 0 (by omega)
    exact writeWord_getD_outside2 buf i v j (by omega)
  · exact Except.noConfusion h

lemma WriteF32ToByteBuf_frame {buf : List Nat} {i v : Nat}
    {buf2 : List Nat} {c : Nat}
    (h : WriteF32ToByteBuf buf i v = .ok (buf2, c)) :
    buf2.length = buf.length ∧
    ∀ j, stridedTouched i 4 4 1 j = false → buf2.getD j 0 = buf.getD j 0 := by
  unfold WriteF32ToByteBuf at h
  split at h
  · injection h with h1
    injection h1 with hb hc
    subst hb
    refine ⟨writeWord_length buf i v, ?_⟩
    intro j hj
    have := stridedTouched_false (by omega) hj 0 (by omega)
    exact writeWord_getD_outside2 buf i v j (by omega)
  · exact Except.noConfusion h

lemma WriteF32SliceToByteBuf_frame {buf : List Nat} {i : Nat} {vals : List Nat}
    {buf2 : List Nat} {c : Nat}
    (h : WriteF32SliceToByteBuf buf i vals = .ok (buf2, c)) :
    buf2.length = buf.length ∧ c = i + 4 * vals.length ∧
    ∀ j, ¬(i ≤ j ∧ j < i + 4 * vals.length) →
      buf2.getD j 0 = buf.getD j 0 := by
  unfold WriteF32SliceToByteBuf at h
  split at h
  · injection h with h1
    obtain ⟨hl, hc, hf⟩ := writeWordsWithStride_frame vals buf i 4 buf2 c h1
    refine ⟨hl, hc, ?_⟩
    intro j hj
    refine hf j ?_
    intro k hk
    have h4 : 4 * (k + 1) ≤ 4 * vals.length := Nat.mul_le_mul_left _ hk
    omega
  · exact Except.noConfusion h

lemma Write32BitIntegerSliceAligned_frame {buf : List Nat} {i : Nat}
    {vals : List Nat} {buf2 : List Nat} {c : Nat}
    (h : Write32BitIntegerSliceToByteBufWithAlignment buf i 16 vals = .ok (buf2, c)) :
    buf2.length = buf.length ∧
    ∀ j, stridedTouched i 16 4 vals.length j = false →
      buf2.getD j 0 = buf.getD j 0 := by
  unfold Write32BitIntegerSliceToByteBufWithAlignment at h
  split at h
  · injection h with h1
    obtain ⟨hl, hc, hf⟩ := writeWordsWithStride_frame vals buf i 16 buf2 c h1
    exact ⟨hl, fun j hj => hf j (stridedTouched_false (by omega) hj)⟩
  · exact Except.noConfusion h

lemma WriteF32SliceAligned_frame {buf : List Nat} {i : Nat}
    {vals : List Nat} {buf2 : List Nat} {c : Nat}
    (h : WriteF32SliceToByteBufWithAlignment buf i 16 vals = .ok (buf2, c)) :
    buf2.length = buf.length ∧
    ∀ j, stridedTouched i 16 4 vals.length j = false →
      buf2.getD j 0 = buf.getD j 0 := by
  unfold WriteF32SliceToByteBufWithAlignment at h
  split at h
  · injection h with h1
    obtain ⟨hl, hc, hf⟩ := writeWordsWithStride_frame vals buf i 16 buf2 c h1
    exact ⟨hl, fun j hj => hf j (stridedTouched_false (by omega) hj)⟩
  · exact Except.noConfusion h

lemma WriteVec2SliceAligned_frame {buf : List Nat} {i : Nat}
    {vals : List GVec2} {buf2 : List Nat} {c : Nat}
    (h : WriteVec2SliceToByteBufWithAlignment buf i 16 vals = .ok (buf2, c)) :
    buf2.length = buf.length ∧ c = i + 16 * vals.length ∧
    ∀ j, stridedTouched i 16 8 vals.length j = false →
      buf2.getD j 0 = buf.getD j 0 := by
  unfold WriteVec2SliceToByteBufWithAlignment at h
  split at h
  · injection h with h1
    obtain ⟨hl, hc, hf⟩ := writeVec2sWithStride_frame vals buf i 16 buf2 c h1
    exact ⟨hl, hc, fun j hj => hf j (stridedTouched_false (by omega) hj)⟩
  · exact Except.noConfusion h

lemma WriteVec3SliceAligned_frame {buf : List Nat} {i : Nat}
    {vals : List GVec3} {buf2 : List Nat} {c : Nat}
    (h : WriteVec3SliceToByteBufWithAlignment buf i 16 vals = .ok (buf2, c)) :
    buf2.length = buf.length ∧ c = i + 16 * vals.length ∧
    ∀ j, stridedTouched i 16 12 vals.length j = false →
      buf2.getD j 0 = buf.getD j 0 := by
  unfold WriteVec3SliceToByteBufWithAlignment at h
  split at h
  · injection h with h1
    obtain ⟨hl, hc, hf⟩ := writeVec3sWithStride_frame vals buf i 16 buf2 c h1
    exact ⟨hl, hc, fun j hj => hf j (stridedTouched_false (by omega) hj)⟩
  · exact Except.noConfusion h

lemma WriteVec4SliceAligned_frame {buf : List Nat} {i : Nat}
    {vals : List GVec4} {buf2 : List Nat} {c : Nat}
    (h : WriteVec4SliceToByteBufWithAlignment buf i 16 vals = .ok (buf2, c)) :
    buf2.length = buf.length ∧ c = i + 16 * vals.length ∧
    ∀ j, stridedTouched i 16 16 vals.length j = false →
      buf2.getD j 0 = buf.getD j 0 := by
  unfold WriteVec4SliceToByteBufWithAlignment at h
  split at h
  · injection h with h1
    obtain ⟨hl, hc, hf⟩ := writeVec4sWithStride_frame vals buf i 16 buf2 c h1
    exact ⟨hl, hc, fun j hj => hf j (stridedTouched_false (by omega) hj)⟩
  · exact Except.noConfusion h


lemma stridedTouched_split {base stride payload n m j : Nat}
    (h : stridedTouched base stride payload (n + m) j = false) :
    stridedTouched base stride payload n j = false ∧
    stridedTouched (base + stride * n) stride payload m j = false := by
  rw [stridedTouched, decide_eq_false_iff_not] at h
  constructor
  · rw [stridedTouched, decide_eq_false_iff_not]
    intro hc
    apply h
    have hm : stride * n ≤ stride * (n + m) := Nat.mul_le_mul_left _ (by omega)
    exact ⟨hc.1, by omega, hc.2.2⟩
  · rw [stridedTouched, decide_eq_false_iff_not]
    intro hc
    apply h
    obtain ⟨hc1, hc2, hc3⟩ := hc
    have hmul : stride * (n + m) = stride * n + stride * m := Nat.mul_add stride n m
    refine ⟨by omega, by omega, ?_⟩
    have h2 : j - base = (j - (base + stride * n)) + stride * n := by omega
    rw [h2, Nat.add_mul_mod_self_left]
    exact hc3

lemma stridedTouched_single {base L j : Nat} (hL : 0 < L) :
    stridedTouched base L L 1 j = false ↔ ¬(base ≤ j ∧ j < base + L) := by
  rw [stridedTouched, decide_eq_false_iff_not]
  constructor
  · intro h hc
    exact h ⟨hc.1, by omega, Nat.mod_lt _ hL⟩
  · intro h hc
    obtain ⟨hc1, hc2, _⟩ := hc
    exact h ⟨hc1, by omega⟩

lemma writeMat2sLoop_frame (vals : List GMat2) : ∀ buf i buf2 c,
    writeMat2sLoop buf i vals = .ok (buf2, c) →
    buf2.length = buf.length ∧ c = i + 32 * vals.length ∧
    ∀ j, stridedTouched i 16 8 (2 * vals.length) j = false →
      buf2.getD j 0 = buf.getD j 0 := by
  induction vals with
  | nil =>
    intro buf i buf2 c h
    simp only [writeMat2sLoop] at h
    injection h with h1
    injection h1 with hb hc
    subst hb
    subst hc
    exact ⟨rfl, by simp, fun j _ => rfl⟩
  | cons m ms ih =>
    intro buf i buf2 c h
    simp only [writeMat2sLoop, bind, Except.bind] at h
    split at h
    · exact Except.noConfusion h
    · rename_i p heqW
      obtain ⟨b, jj⟩ := p
      obtain ⟨hl1, hc1, hf1⟩ := WriteVec2SliceAligned_frame heqW
      obtain ⟨hl2, hc2, hf2⟩ := ih b jj buf2 c h
      have hjj : jj = i + 32 := by simpa using hc1
      refine ⟨by rw [hl2, hl1], ?_, ?_⟩
      · rw [hc2, hjj, List.length_cons, Nat.mul_succ]
        omega
      · intro j hj
        have hlen2 : 2 * (m :: ms).length = 2 + 2 * ms.length := by
          simp [List.length_cons]
          omega
        rw [hlen2] at hj
        obtain ⟨hjA, hjB⟩ := @stridedTouched_split i 16 8 2 (2 * ms.length) j hj
        rw [hf2 j (by rw [hjj]; simpa using hjB), hf1 j (by simpa using hjA)]

lemma writeMat3sLoop_frame (vals : List GMat3) : ∀ buf i buf2 c,
    writeMat3sLoop buf i vals = .ok (buf2, c) →
    buf2.length = buf.length ∧ c = i + 48 * vals.length ∧
    ∀ j, stridedTouched i 16 12 (3 * vals.length) j = false →
      buf2.getD j 0 = buf.getD j 0 := by
  induction vals with
  | nil =>
    intro buf i buf2 c h
    simp only [writeMat3sLoop] at h
    injection h with h1
    injection h1 with hb hc
    subst hb
    subst hc
    exact ⟨rfl, by simp, fun j _ => rfl⟩
  | cons m ms ih =>
    intro buf i buf2 c h
    simp only [writeMat3sLoop, bind, Except.bind] at h
    split at h
    · exact Except.noConfusion h
    · rename_i p heqW
      obtain ⟨b, jj⟩ := p
      obtain ⟨hl1, hc1, hf1⟩ := WriteVec3SliceAligned_frame heqW
      obtain ⟨hl2, hc2, hf2⟩ := ih b jj buf2 c h
      have hjj : jj = i + 48 := by simpa using hc1
      refine ⟨by rw [hl2, hl1], ?_, ?_⟩
      · rw [hc2, hjj, List.length_cons, Nat.mul_succ]
        omega
      · intro j hj
        have hlen2 : 3 * (m :: ms).length = 3 + 3 * ms.length := by
          simp [List.length_cons]
          omega
        rw [hlen2] at hj
        obtain ⟨hjA, hjB⟩ := @stridedTouched_split i 16 12 3 (3 * ms.length) j hj
        rw [hf2 j (by rw [hjj]; simpa using hjB), hf1 j (by simpa using hjA)]

lemma writeMat4sLoop_frame (vals : List GMat4) : ∀ buf i buf2 c,
    writeMat4sLoop buf i vals = .ok (buf2, c) →
    buf2.length = buf.length ∧ c = i + 64 * vals.length ∧
    ∀ j, stridedTouched i 16 16 (4 * vals.length) j = false →
      buf2.getD j 0 = buf.getD j 0 := by
  induction vals with
  | nil =>
    intro buf i buf2 c h
    simp only [writeMat4sLoop] at h
    injection h with h1
    injection h1 with hb hc
    subst hb
    subst hc
    exact ⟨rfl, by simp, fun j _ => rfl⟩
  | cons m ms ih =>
    intro buf i buf2 c h
    simp only [writeMat4sLoop, bind, Except.bind] at h
    split at h
    · exact Except.noConfusion h
    · rename_i p heqW
      obtain ⟨b, jj⟩ := p
      obtain ⟨hl1, hc1, hf1⟩ := WriteVec4SliceAligned_frame heqW
      obtain ⟨hl2, hc2, hf2⟩ := ih b jj buf2 c h
      have hjj : jj = i + 64 := by simpa using hc1
      refine ⟨by rw [hl2, hl1], ?_, ?_⟩
      · rw [hc2, hjj, List.length_cons, Nat.mul_succ]
        omega
      · intro j hj
        have hlen2 : 4 * (m :: ms).length = 4 + 4 * ms.length := by
          simp [List.length_cons]
          omega
        rw [hlen2] at hj
        obtain ⟨hjA, hjB⟩ := @stridedTouched_split i 16 16 4 (4 * ms.length) j hj
        rw [hf2 j (by rw [hjj]; simpa using hjB), hf1 j (by simpa using hjA)]

lemma WriteMat2SliceAligned_frame {buf : List Nat} {i a : Nat}
    {vals : List GMat2} {buf2 : List Nat} {c : Nat}
    (h : WriteMat2SliceToByteBufWithAlignment buf i a vals = .ok (buf2, c)) :
    buf2.length = buf.length ∧
    ∀ j, stridedTouched i 16 8 (2 * vals.length) j = false →
      buf2.getD j 0 = buf.getD j 0 := by
  unfold WriteMat2SliceToByteBufWithAlignment at h
  split at h
  · obtain ⟨h1, h2, h3⟩ := writeMat2sLoop_frame vals buf i buf2 c h
    exact ⟨h1, h3⟩
  · exact Except.noConfusion h

lemma WriteMat3SliceAligned_frame {buf : List Nat} {i a : Nat}
    {vals : List GMat3} {buf2 : List Nat} {c : Nat}
    (h : WriteMat3SliceToByteBufWithAlignment buf i a vals = .ok (buf2, c)) :
    buf2.length = buf.length ∧
    ∀ j, stridedTouched i 16 12 (3 * vals.length) j = false →
      buf2.getD j 0 = buf.getD j 0 := by
  unfold WriteMat3SliceToByteBufWithAlignment at h
  split at h
  · obtain ⟨h1, h2, h3⟩ := writeMat3sLoop_frame vals buf i buf2 c h
    exact ⟨h1, h3⟩
  · exact Except.noConfusion h

lemma WriteMat4SliceAligned_frame {buf : List Nat} {i a : Nat}
    {vals : List GMat4} {buf2 : List Nat} {c : Nat}
    (h : WriteMat4SliceToByteBufWithAlignment buf i a vals = .ok (buf2, c)) :
    buf2.length = buf.length ∧
    ∀ j, stridedTouched i 16 16 (4 * vals.length) j = false →
      buf2.getD j 0 = buf.getD j 0 := by
  unfold WriteMat4SliceToByteBufWithAlignment at h
  split at h
  · obtain ⟨h1, h2, h3⟩ := writeMat4sLoop_frame vals buf i buf2 c h
    exact ⟨h1, h3⟩
  · exact Except.noConfusion h


lemma wuf_frame_u32 {buf : List Nat} {bw0 fieldIndex bits : Nat}
    {buf2 : List Nat} {c : Nat}
    (h : writeUniformField buf bw0 fieldIndex .dataTypeUint32 (.u32 bits)
      = .ok (buf2, c)) :
    buf2.length = buf.length ∧
    ∀ j, writeUniformFieldTouched bw0 .dataTypeUint32 (.u32 bits) j = false →
      buf2.getD j 0 = buf.getD j 0 := by
  simp only [writeUniformField] at h
  simp only [writeUniformFieldTouched]
  exact Write32BitIntegerToByteBuf_frame h

lemma wuf_frame_i32 {buf : List Nat} {bw0 fieldIndex bits : Nat}
    {buf2 : List Nat} {c : Nat}
    (h : writeUniformField buf bw0 fieldIndex .dataTypeInt32 (.i32 bits)
      = .ok (buf2, c)) :
    buf2.length = buf.length ∧
    ∀ j, writeUniformFieldTouched bw0 .dataTypeInt32 (.i32 bits) j = false →
      buf2.getD j 0 = buf.getD j 0 := by
  simp only [writeUniformField] at h
  simp only [writeUniformFieldTouched]
  exact Write32BitIntegerToByteBuf_frame h

lemma wuf_frame_f32 {buf : List Nat} {bw0 fieldIndex bits : Nat}
    {buf2 : List Nat} {c : Nat}
    (h : writeUniformField buf bw0 fieldIndex .dataTypeFloat32 (.f32 bits)
      = .ok (buf2, c)) :
    buf2.length = buf.length ∧
    ∀ j, writeUniformFieldTouched bw0 .dataTypeFloat32 (.f32 bits) j = false →
      buf2.getD j 0 = buf.getD j 0 := by
  simp only [writeUniformField] at h
  simp only [writeUniformFieldTouched]
  exact WriteF32ToByteBuf_frame h

lemma wuf_frame_u32Arr {buf : List Nat} {bw0 fieldIndex : Nat} {es : List Nat}
    {buf2 : List Nat} {c : Nat}
    (h : writeUniformField buf bw0 fieldIndex .dataTypeUint32 (.u32Arr es)
      = .ok (buf2, c)) :
    buf2.length = buf.length ∧
    ∀ j, writeUniformFieldTouched bw0 .dataTypeUint32 (.u32Arr es) j = false →
      buf2.getD j 0 = buf.getD j 0 := by
  simp only [writeUniformField] at h
  simp only [writeUniformFieldTouched]
  exact Write32BitIntegerSliceAligned_frame h

lemma wuf_frame_i32Arr {buf : List Nat} {bw0 fieldIndex : Nat} {es : List Nat}
    {buf2 : List Nat} {c : Nat}
    (h : writeUniformField buf bw0 fieldIndex .dataTypeInt32 (.i32Arr es)
      = .ok (buf2, c)) :
    buf2.length = buf.length ∧
    ∀ j, writeUniformFieldTouched bw0 .dataTypeInt32 (.i32Arr es) j = false →
      buf2.getD j 0 = buf.getD j 0 := by
  simp only [writeUniformField] at h
  simp only [writeUniformFieldTouched]
  exact Write32BitIntegerSliceAligned_frame h

lemma wuf_frame_f32Arr {buf : List Nat} {bw0 fieldIndex : Nat} {es : List Nat}
    {buf2 : List Nat} {c : Nat}
    (h : writeUniformField buf bw0 fieldIndex .dataTypeFloat32 (.f32Arr es)
      = .ok (buf2, c)) :
    buf2.length = buf.length ∧
    ∀ j, writeUniformFieldTouched bw0 .dataTypeFloat32 (.f32Arr es) j = false →
      buf2.getD j 0 = buf.getD j 0 := by
  simp only [writeUniformField] at h
  simp only [writeUniformFieldTouched]
  exact WriteF32SliceAligned_frame h

lemma wuf_frame_vec2 {buf : List Nat} {bw0 fieldIndex : Nat} {v2 : GVec2}
    {buf2 : List Nat} {c : Nat}
    (h : writeUniformField buf bw0 fieldIndex .dataTypeVec2 (.vec2 v2)
      = .ok (buf2, c)) :
    buf2.length = buf.length ∧
    ∀ j, writeUniformFieldTouched bw0 .dataTypeVec2 (.vec2 v2) j = false →
      buf2.getD j 0 = buf.getD j 0 := by
  simp only [writeUniformField] at h
  simp only [writeUniformFieldTouched]
  obtain ⟨h1, hcur, h2⟩ := WriteF32SliceToByteBuf_frame h
  refine ⟨h1, fun j hj => h2 j ?_⟩
  rw [stridedTouched_single (by norm_num)] at hj
  simp only [List.length_cons, List.length_nil]
  omega

lemma wuf_frame_vec3 {buf : List Nat} {bw0 fieldIndex : Nat} {v3 : GVec3}
    {buf2 : List Nat} {c : Nat}
    (h : writeUniformField buf bw0 fieldIndex .dataTypeVec3 (.vec3 v3)
      = .ok (buf2, c)) :
    buf2.length = buf.length ∧
    ∀ j, writeUniformFieldTouched bw0 .dataTypeVec3 (.vec3 v3) j = false →
      buf2.getD j 0 = buf.getD j 0 := by
  simp only [writeUniformField] at h
  simp only [writeUniformFieldTouched]
  obtain ⟨h1, hcur, h2⟩ := WriteF32SliceToByteBuf_frame h
  refine ⟨h1, fun j hj => h2 j ?_⟩
  rw [stridedTouched_single (by norm_num)] at hj
  simp only [List.length_cons, List.length_nil]
  omega

lemma wuf_frame_vec4 {buf : List Nat} {bw0 fieldIndex : Nat} {v4 : GVec4}
    {buf2 : List Nat} {c : Nat}
    (h : writeUniformField buf bw0 fieldIndex .dataTypeVec4 (.vec4 v4)
      = .ok (buf2, c)) :
    buf2.length = buf.length ∧
    ∀ j, writeUniformFieldTouched bw0 .dataTypeVec4 (.vec4 v4) j = false →
      buf2.getD j 0 = buf.getD j 0 := by
  simp only [writeUniformField] at h
  simp only [writeUniformFieldTouched]
  obtain ⟨h1, hcur, h2⟩ := WriteF32SliceToByteBuf_frame h
  refine ⟨h1, fun j hj => h2 j ?_⟩
  rw [stridedTouched_single (by norm_num)] at hj
  simp only [List.length_cons, List.length_nil]
  omega

lemma wuf_frame_vec2Arr {buf : List Nat} {bw0 fieldIndex : Nat}
    {es : List GVec2} {buf2 : List Nat} {c : Nat}
    (h : writeUniformField buf bw0 fieldIndex .dataTypeVec2 (.vec2Arr es)
      = .ok (buf2, c)) :
    buf2.length = buf.length ∧
    ∀ j, writeUniformFieldTouched bw0 .dataTypeVec2 (.vec2Arr es) j = false →
      buf2.getD j 0 = buf.getD j 0 := by
  simp only [writeUniformField] at h
  simp only [writeUniformFieldTouched]
  obtain ⟨h1, hcur, h2⟩ := WriteVec2SliceAligned_frame h
  exact ⟨h1, h2⟩

lemma wuf_frame_vec3Arr {buf : List Nat} {bw0 fieldIndex : Nat}
    {es : List GVec3} {buf2 : List Nat} {c : Nat}
    (h : writeUniformField buf bw0 fieldIndex .dataTypeVec3 (.vec3Arr es)
      = .ok (buf2, c)) :
    buf2.length = buf.length ∧
    ∀ j, writeUniformFieldTouched bw0 .dataTypeVec3 (.vec3Arr es) j = false →
      buf2.getD j 0 = buf.getD j 0 := by
  simp only [writeUniformField] at h
  simp only [writeUniformFieldTouched]
  obtain ⟨h1, hcur, h2⟩ := WriteVec3SliceAligned_frame h
  exact ⟨h1, h2⟩

lemma wuf_frame_vec4Arr {buf : List Nat} {bw0 fieldIndex : Nat}
    {es : List GVec4} {buf2 : List Nat} {c : Nat}
    (h : writeUniformField buf bw0 fieldIndex .dataTypeVec4 (.vec4Arr es)
      = .ok (buf2, c)) :
    buf2.length = buf.length ∧
    ∀ j, writeUniformFieldTouched bw0 .dataTypeVec4 (.vec4Arr es) j = false →
      buf2.getD j 0 = buf.getD j 0 := by
  simp only [writeUniformField] at h
  simp only [writeUniformFieldTouched]
  obtain ⟨h1, hcur, h2⟩ := WriteVec4SliceAligned_frame h
  exact ⟨h1, h2⟩

lemma wuf_frame_mat2 {buf : List Nat} {bw0 fieldIndex : Nat} {m : GMat2}
    {buf2 : List Nat} {c : Nat}
    (h : writeUniformField buf bw0 fieldIndex .dataTypeMat2 (.mat2 m)
      = .ok (buf2, c)) :
    buf2.length = buf.length ∧
    ∀ j, writeUniformFieldTouched bw0 .dataTypeMat2 (.mat2 m) j = false →
      buf2.getD j 0 = buf.getD j 0 := by
  simp only [writeUniformField, bind, Except.bind] at h
  simp only [writeUniformFieldTouched]
  split at h
  · exact Except.noConfusion h
  · rename_i p heq1
    obtain ⟨b1, k1⟩ := p
    obtain ⟨hA1, hAc, hA2⟩ := WriteF32SliceToByteBuf_frame heq1
    obtain ⟨hB1, hBc, hB2⟩ := WriteF32SliceToByteBuf_frame h
    refine ⟨by rw [hB1, hA1], fun j hj => ?_⟩
    rw [stridedTouched_single (by norm_num)] at hj
    simp only [List.length_cons, List.length_nil] at hAc
    rw [hB2 j (by simp only [List.length_cons, List.length_nil]; omega),
      hA2 j (by simp only [List.length_cons, List.length_nil]; omega)]

lemma wuf_frame_mat3 {buf : List Nat} {bw0 fieldIndex : Nat} {m : GMat3}
    {buf2 : List Nat} {c : Nat}
    (h : writeUniformField buf bw0 fieldIndex .dataTypeMat3 (.mat3 m)
      = .ok (buf2, c)) :
    buf2.length = buf.length ∧
    ∀ j, writeUniformFieldTouched bw0 .dataTypeMat3 (.mat3 m) j = false →
      buf2.getD j 0 = buf.getD j 0 := by
  simp only [writeUniformField, bind, Except.bind] at h
  simp only [writeUniformFieldTouched]
  split at h
  · exact Except.noConfusion h
  · rename_i p heq1
    obtain ⟨b1, k1⟩ := p
    split at h
    · exact Except.noConfusion h
    · rename_i p2 heq2
      obtain ⟨b2, k2⟩ := p2
      obtain ⟨hA1, hAc, hA2⟩ := WriteF32SliceToByteBuf_frame heq1
      obtain ⟨hB1, hBc, hB2⟩ := WriteF32SliceToByteBuf_frame heq2
      obtain ⟨hC1, hCc, hC2⟩ := WriteF32SliceToByteBuf_frame h
      refine ⟨by rw [hC1, hB1, hA1], fun j hj => ?_⟩
      rw [stridedTouched_single (by norm_num)] at hj
      simp only [List.length_cons, List.length_nil] at hAc hBc
      rw [hC2 j (by simp only [List.length_cons, List.length_nil]; omega),
        hB2 j (by simp only [List.length_cons, List.length_nil]; omega),
        hA2 j (by simp only [List.length_cons, List.length_nil]; omega)]

lemma wuf_frame_mat4 {buf : List Nat} {bw0 fieldIndex : Nat} {m : GMat4}
    {buf2 : List Nat} {c : Nat}
    (h : writeUniformField buf bw0 fieldIndex .dataTypeMat4 (.mat4 m)
      = .ok (buf2, c)) :
    buf2.length = buf.length ∧
    ∀ j, writeUniformFieldTouched bw0 .dataTypeMat4 (.mat4 m) j = false →
      buf2.getD j 0 = buf.getD j 0 := by
  simp only [writeUniformField, bind, Except.bind] at h
  simp only [writeUniformFieldTouched]
  split at h
  · exact Except.noConfusion h
  · rename_i p heq1
    obtain ⟨b1, k1⟩ := p
    split at h
    · exact Except.noConfusion h
    · rename_i p2 heq2
      obtain ⟨b2, k2⟩ := p2
      split at h
      · exact Except.noConfusion h
      · rename_i p3 heq3
        obtain ⟨b3, k3⟩ := p3
        obtain ⟨hA1, hAc, hA2⟩ := WriteF32SliceToByteBuf_frame heq1
        obtain ⟨hB1, hBc, hB2⟩ := WriteF32SliceToByteBuf_frame heq2
        obtain ⟨hC1, hCc, hC2⟩ := WriteF32SliceToByteBuf_frame heq3
        obtain ⟨hD1, hDc, hD2⟩ := WriteF32SliceToByteBuf_frame h
        refine ⟨by rw [hD1, hC1, hB1, hA1], fun j hj => ?_⟩
        rw [stridedTouched_single (by norm_num)] at hj
        simp only [List.length_cons, List.length_nil] at hAc hBc hCc
        rw [hD2 j (by simp only [List.length_cons, List.length_nil]; omega),
          hC2 j (by simp only [List.length_cons, List.length_nil]; omega),
          hB2 j (by simp only [List.length_cons, List.length_nil]; omega),
          hA2 j (by simp only [List.length_cons, List.length_nil]; omega)]

lemma wuf_frame_mat2Arr {buf : List Nat} {bw0 fieldIndex : Nat}
    {es : List GMat2} {buf2 : List Nat} {c : Nat}
    (h : writeUniformField buf bw0 fieldIndex .dataTypeMat2 (.mat2Arr es)
      = .ok (buf2, c)) :
    buf2.length = buf.length ∧
    ∀ j, writeUniformFieldTouched bw0 .dataTypeMat2 (.mat2Arr es) j = false →
      buf2.getD j 0 = buf.getD j 0 := by
  simp only [writeUniformField] at h
  simp only [writeUniformFieldTouched]
  exact WriteMat2SliceAligned_frame h

lemma wuf_frame_mat3Arr {buf : List Nat} {bw0 fieldIndex : Nat}
    {es : List GMat3} {buf2 : List Nat} {c : Nat}
    (h : writeUniformField buf bw0 fieldIndex .dataTypeMat3 (.mat3Arr es)
      = .ok (buf2, c)) :
    buf2.length = buf.length ∧
    ∀ j, writeUniformFieldTouched bw0 .dataTypeMat3 (.mat3Arr es) j = false →
      buf2.getD j 0 = buf.getD j 0 := by
  simp only [writeUniformField] at h
  simp only [writeUniformFieldTouched]
  exact WriteMat3SliceAligned_frame h

lemma wuf_frame_mat4Arr {buf : List Nat} {bw0 fieldIndex : Nat}
    {es : List GMat4} {buf2 : List Nat} {c : Nat}
    (h : writeUniformField buf bw0 fieldIndex .dataTypeMat4 (.mat4Arr es)
      = .ok (buf2, c)) :
    buf2.length = buf.length ∧
    ∀ j, writeUniformFieldTouched bw0 .dataTypeMat4 (.mat4Arr es) j = false →
      buf2.getD j 0 = buf.getD j 0 := by
  simp only [writeUniformField] at h
  simp only [writeUniformFieldTouched]
  exact WriteMat4SliceAligned_frame h

lemma writeUniformField_unknown (buf : List Nat) (bw0 fieldIndex : Nat)
    (v : GoValue) :
    writeUniformField buf bw0 fieldIndex .dataTypeUnknown v
      = .error .unknownTypeError := by
  cases v <;> simp [writeUniformField]

lemma writeUniformField_frame {buf : List Nat} {bw0 fieldIndex : Nat}
    {t : ElementType} {v : GoValue} {buf2 : List Nat} {c : Nat}
    (h : writeUniformField buf bw0 fieldIndex t v = .ok (buf2, c)) :
    buf2.length = buf.length ∧
    ∀ j, writeUniformFieldTouched bw0 t v j = false →
      buf2.getD j 0 = buf.getD j 0 := by
  rcases Bool.eq_false_or_eq_true (uniformFieldTypeMatches t v) with hm | hm
  case inr =>
    by_cases ht : t = ElementType.dataTypeUnknown
    · subst ht
      rw [writeUniformField_unknown buf bw0 fieldIndex v] at h
      exact Except.noConfusion h
    · rw [writeUniformField_mismatch buf bw0 fieldIndex t v hm ht] at h
      exact Except.noConfusion h
  case inl =>
    cases t <;> cases v <;> simp [uniformFieldTypeMatches] at hm
    case u32 => exact wuf_frame_u32 h
    case u32Arr => exact wuf_frame_u32Arr h
    case i32 => exact wuf_frame_i32 h
    case i32Arr => exact wuf_frame_i32Arr h
    case f32 => exact wuf_frame_f32 h
    case f32Arr => exact wuf_frame_f32Arr h
    case vec2 => exact wuf_frame_vec2 h
    case vec2Arr => exact wuf_frame_vec2Arr h
    case vec3 => exact wuf_frame_vec3 h
    case vec3Arr => exact wuf_frame_vec3Arr h
    case vec4 => exact wuf_frame_vec4 h
    case vec4Arr => exact wuf_frame_vec4Arr h
    case mat2 => exact wuf_frame_mat2 h
    case mat2Arr => exact wuf_frame_mat2Arr h
    case mat3 => exact wuf_frame_mat3 h
    case mat3Arr => exact wuf_frame_mat3Arr h
    case mat4 => exact wuf_frame_mat4 h
    case mat4Arr => exact wuf_frame_mat4Arr h
    case structV =>
      simp only [writeUniformField] at h
      split at h <;> exact Except.noConfusion h
    case structArr =>
      simp only [writeUniformField] at h
      split at h <;> exact Except.noConfusion h

set_option maxHeartbeats 1000000 in
lemma setStruct_frame_all : ∀ fuel : Nat,
    (∀ fields buf inputStruct maxF only wOff out,
       setStructFuel fuel fields buf inputStruct maxF only wOff = .ok out →
       out.buf.length = buf.length ∧
       ∀ pos, setStructTouchedFuel fuel fields buf inputStruct maxF wOff pos
           = false →
         out.buf.getD pos 0 = buf.getD pos 0) ∧
    (∀ fs vals fieldIndex allowance buf wOff bw fc b2 bw2 fc2,
       setStructLoopFuel fuel fs vals fieldIndex allowance buf wOff bw fc
           = .ok (b2, bw2, fc2) →
       b2.length = buf.length ∧
       ∀ pos, setStructLoopTouchedFuel fuel fs vals fieldIndex allowance buf
           wOff bw fc pos = false →
         b2.getD pos 0 = buf.getD pos 0) ∧
    (∀ ftu elems i asz numF offset buf bw ec b2 off2 bw2 ec2,
       setStructArrLoopFuel fuel ftu elems i asz numF offset buf bw ec
           = .ok (b2, off2, bw2, ec2) →
       b2.length = buf.length ∧
       ∀ pos, setStructArrTouchedFuel fuel ftu elems i asz numF offset buf bw
           ec pos = false →
         b2.getD pos 0 = buf.getD pos 0) := by
  intro fuel
  induction fuel with
  | zero =>
    refine ⟨fun _ _ _ _ _ _ _ h => ?_,
      fun _ _ _ _ _ _ _ _ _ _ _ h => ?_,
      fun _ _ _ _ _ _ _ _ _ _ _ _ _ h => ?_⟩
    · rw [setStructFuel.eq_def] at h
      exact Except.noConfusion h
    · rw [setStructLoopFuel.eq_def] at h
      exact Except.noConfusion h
    · rw [setStructArrLoopFuel.eq_def] at h
      exact Except.noConfusion h
  | succ fuel ih =>
    obtain ⟨ihS, ihL, ihA⟩ := ih
    refine ⟨?_, ?_, ?_⟩
    · intro fields buf inputStruct maxF only wOff out h
      rw [setStructFuel.eq_def] at h
      dsimp only at h
      cases fields with
      | nil =>
        injection h with h1
        subst h1
        exact ⟨rfl, fun _ _ => rfl⟩
      | cons f0 rest =>
        cases inputStruct
        case structV vals =>
          dsimp only at h
          simp only [bind, Except.bind] at h
          split at h
          · exact Except.noConfusion h
          · rename_i trip heq
            obtain ⟨buf2, bw, fcons⟩ := trip
            dsimp only at h
            obtain ⟨hL1, hLF⟩ :=
              ihL (f0 :: rest) vals 0 maxF buf wOff 0 0 buf2 bw fcons heq
            split at h
            · injection h with h1
              subst h1
              refine ⟨hL1, ?_⟩
              intro pos ht
              rw [setStructTouchedFuel.eq_def] at ht
              dsimp only at ht
              exact hLF pos ht
            · injection h with h1
              subst h1
              refine ⟨hL1, ?_⟩
              intro pos ht
              rw [setStructTouchedFuel.eq_def] at ht
              dsimp only at ht
              exact hLF pos ht
        all_goals (dsimp only at h; exact Except.noConfusion h)
    · intro fs vals fieldIndex allowance buf wOff bw fc b2 bw2 fc2 h
      rw [setStructLoopFuel.eq_def] at h
      dsimp only at h
      cases fs with
      | nil =>
        simp only [Except.ok.injEq, Prod.mk.injEq] at h
        obtain ⟨h1, h2, h3⟩ := h
        subst h1
        exact ⟨rfl, fun _ _ => rfl⟩
      | cons ubField fsRest =>
        obtain ⟨fid, foff, fcnt, fty⟩ := ubField
        dsimp only at h
        by_cases hA : allowance = 0
        · rw [if_pos hA] at h
          simp only [Except.ok.injEq, Prod.mk.injEq] at h
          obtain ⟨h1, h2, h3⟩ := h
          subst h1
          exact ⟨rfl, fun _ _ => rfl⟩
        · rw [if_neg hA] at h
          cases vals with
          | nil => exact Except.noConfusion h
          | cons v valsRest =>
            dsimp only at h
            by_cases hArr : (v.isArrayValue && (v.arrayLen != fcnt)) = true
            · rw [if_pos hArr] at h
              exact Except.noConfusion h
            · rw [if_neg hArr] at h
              cases fty with
              | dataTypeStruct =>
                cases v with
                | u32 _ =>
                  (dsimp only at h
                   simp only [bind, Except.bind] at h
                   split at h
                   · exact Except.noConfusion h
                   · rename_i p heq
                     simp [writeUniformField] at heq)
                | i32 _ =>
                  (dsimp only at h
                   simp only [bind, Except.bind] at h
                   split at h
                   · exact Except.noConfusion h
                   · rename_i p heq
                     simp [writeUniformField] at heq)
                | f32 _ =>
                  (dsimp only at h
                   simp only [bind, Except.bind] at h
                   split at h
                   · exact Except.noConfusion h
                   · rename_i p heq
                     simp [writeUniformField] at heq)
                | vec2 _ =>
                  (dsimp only at h
                   simp only [bind, Except.bind] at h
                   split at h
                   · exact Except.noConfusion h
                   · rename_i p heq
                     simp [writeUniformField] at heq)
                | vec3 _ =>
                  (dsimp only at h
                   simp only [bind, Except.bind] at h
                   split at h
                   · exact Except.noConfusion h
                   · rename_i p heq
                     simp [writeUniformField] at heq)
                | vec4 _ =>
                  (dsimp only at h
                   simp only [bind, Except.bind] at h
                   split at h
                   · exact Except.noConfusion h
                   · rename_i p heq
                     simp [writeUniformField] at heq)
                | mat2 _ =>
                  (dsimp only at h
                   simp only [bind, Except.bind] at h
                   split at h
                   · exact Except.noConfusion h
                   · rename_i p heq
                     simp [writeUniformField] at heq)
                | mat3 _ =>
                  (dsimp only at h
                   simp only [bind, Except.bind] at h
                   split at h
                   · exact Except.noConfusion h
                   · rename_i p heq
                     simp [writeUniformField] at heq)
                | mat4 _ =>
                  (dsimp only at h
                   simp only [bind, Except.bind] at h
                   split at h
                   · exact Except.noConfusion h
                   · rename_i p heq
                     simp [writeUniformField] at heq)
                | structV subvals =>
                  dsimp only at h
                  simp only [bind, Except.bind] at h
                  split at h
                  · exact Except.noConfusion h
                  · rename_i r heq
                    obtain ⟨hS1, hSF⟩ :=
                      ihS fsRest buf (.structV subvals) subvals.length true
                        wOff r heq
                    obtain ⟨hL1, hLF⟩ := ihL _ _ _ _ _ _ _ _ _ _ _ h
                    refine ⟨by rw [hL1, hS1], ?_⟩
                    intro pos ht
                    rw [setStructLoopTouchedFuel.eq_def] at ht
                    dsimp only at ht
                    rw [if_neg hA, if_neg hArr] at ht
                    rw [heq] at ht
                    dsimp only at ht
                    rcases Bool.or_eq_false_iff.mp ht with ⟨ht1, ht2⟩
                    rw [hLF pos ht2, hSF pos ht1]
                | u32Arr _ =>
                  (dsimp only at h
                   simp only [bind, Except.bind] at h
                   split at h
                   · exact Except.noConfusion h
                   · rename_i p heq
                     simp [writeUniformField] at heq)
                | i32Arr _ =>
                  (dsimp only at h
                   simp only [bind, Except.bind] at h
                   split at h
                   · exact Except.noConfusion h
                   · rename_i p heq
                     simp [writeUniformField] at heq)
                | f32Arr _ =>
                  (dsimp only at h
                   simp only [bind, Except.bind] at h
                   split at h
                   · exact Except.noConfusion h
                   · rename_i p heq
                     simp [writeUniformField] at heq)
                | vec2Arr _ =>
                  (dsimp only at h
                   simp only [bind, Except.bind] at h
                   split at h
                   · exact Except.noConfusion h
                   · rename_i p heq
                     simp [writeUniformField] at heq)
                | vec3Arr _ =>
                  (dsimp only at h
                   simp only [bind, Except.bind] at h
                   split at h
                   · exact Except.noConfusion h
                   · rename_i p heq
                     simp [writeUniformField] at heq)
                | vec4Arr _ =>
                  (dsimp only at h
                   simp only [bind, Except.bind] at h
                   split at h
                   · exact Except.noConfusion h
                   · rename_i p heq
                     simp [writeUniformField] at heq)
                | mat2Arr _ =>
                  (dsimp only at h
                   simp only [bind, Except.bind] at h
                   split at h
                   · exact Except.noConfusion h
                   · rename_i p heq
                     simp [writeUniformField] at heq)
                | mat3Arr _ =>
                  (dsimp only at h
                   simp only [bind, Except.bind] at h
                   split at h
                   · exact Except.noConfusion h
                   · rename_i p heq
                     simp [writeUniformField] at heq)
                | mat4Arr _ =>
                  (dsimp only at h
                   simp only [bind, Except.bind] at h
                   split at h
                   · exact Except.noConfusion h
                   · rename_i p heq
                     simp [writeUniformField] at heq)
                | structArr elems =>
                  dsimp only at h
                  simp only [bind, Except.bind] at h
                  split at h
                  · exact Except.noConfusion h
                  · rename_i quad heq
                    obtain ⟨b, xoff, bwF, extra⟩ := quad
                    dsimp only at h
                    obtain ⟨hA1, hAF⟩ :=
                      ihA fsRest elems 0 elems.length
                        (structArrElemNumFields elems) 0 buf (foff + wOff) 0
                        b xoff bwF extra heq
                    obtain ⟨hL1, hLF⟩ := ihL _ _ _ _ _ _ _ _ _ _ _ h
                    refine ⟨by rw [hL1, hA1], ?_⟩
                    intro pos ht
                    rw [setStructLoopTouchedFuel.eq_def] at ht
                    dsimp only at ht
                    rw [if_neg hA, if_neg hArr] at ht
                    rw [heq] at ht
                    dsimp only at ht
                    rcases Bool.or_eq_false_iff.mp ht with ⟨ht1, ht2⟩
                    rw [hLF pos ht2, hAF pos ht1]
              | dataTypeUnknown =>
                (dsimp only at h
                 simp only [bind, Except.bind] at h
                 split at h
                 · exact Except.noConfusion h
                 · rename_i p heq
                   obtain ⟨b, c⟩ := p
                   obtain ⟨hW1, hWF⟩ := writeUniformField_frame heq
                   obtain ⟨hL1, hLF⟩ := ihL _ _ _ _ _ _ _ _ _ _ _ h
                   refine ⟨by rw [hL1, hW1], ?_⟩
                   intro pos ht
                   rw [setStructLoopTouchedFuel.eq_def] at ht
                   dsimp only at ht
                   rw [if_neg hA, if_neg hArr] at ht
                   rw [heq] at ht
                   dsimp only at ht
                   rcases Bool.or_eq_false_iff.mp ht with ⟨ht1, ht2⟩
                   rw [hLF pos ht2, hWF pos ht1])
              | dataTypeUint32 =>
                (dsimp only at h
                 simp only [bind, Except.bind] at h
                 split at h
                 · exact Except.noConfusion h
                 · rename_i p heq
                   obtain ⟨b, c⟩ := p
                   obtain ⟨hW1, hWF⟩ := writeUniformField_frame heq
                   obtain ⟨hL1, hLF⟩ := ihL _ _ _ _ _ _ _ _ _ _ _ h
                   refine ⟨by rw [hL1, hW1], ?_⟩
                   intro pos ht
                   rw [setStructLoopTouchedFuel.eq_def] at ht
                   dsimp only at ht
                   rw [if_neg hA, if_neg hArr] at ht
                   rw [heq] at ht
                   dsimp only at ht
                   rcases Bool.or_eq_false_iff.mp ht with ⟨ht1, ht2⟩
                   rw [hLF pos ht2, hWF pos ht1])
              | dataTypeInt32 =>
                (dsimp only at h
                 simp only [bind, Except.bind] at h
                 split at h
                 · exact Except.noConfusion h
                 · rename_i p heq
                   obtain ⟨b, c⟩ := p
                   obtain ⟨hW1, hWF⟩ := writeUniformField_frame heq
                   obtain ⟨hL1, hLF⟩ := ihL _ _ _ _ _ _ _ _ _ _ _ h
                   refine ⟨by rw [hL1, hW1], ?_⟩
                   intro pos ht
                   rw [setStructLoopTouchedFuel.eq_def] at ht
                   dsimp only at ht
                   rw [if_neg hA, if_neg hArr] at ht
                   rw [heq] at ht
                   dsimp only at ht
                   rcases Bool.or_eq_false_iff.mp ht with ⟨ht1, ht2⟩
                   rw [hLF pos ht2, hWF pos ht1])
              | dataTypeFloat32 =>
                (dsimp only at h
                 simp only [bind, Except.bind] at h
                 split at h
                 · exact Except.noConfusion h
                 · rename_i p heq
                   obtain ⟨b, c⟩ := p
                   obtain ⟨hW1, hWF⟩ := writeUniformField_frame heq
                   obtain ⟨hL1, hLF⟩ := ihL _ _ _ _ _ _ _ _ _ _ _ h
                   refine ⟨by rw [hL1, hW1], ?_⟩
                   intro pos ht
                   rw [setStructLoopTouchedFuel.eq_def] at ht
                   dsimp only at ht
                   rw [if_neg hA, if_neg hArr] at ht
                   rw [heq] at ht
                   dsimp only at ht
                   rcases Bool.or_eq_false_iff.mp ht with ⟨ht1, ht2⟩
                   rw [hLF pos ht2, hWF pos ht1])
              | dataTypeVec2 =>
                (dsimp only at h
                 simp only [bind, Except.bind] at h
                 split at h
                 · exact Except.noConfusion h
                 · rename_i p heq
                   obtain ⟨b, c⟩ := p
                   obtain ⟨hW1, hWF⟩ := writeUniformField_frame heq
                   obtain ⟨hL1, hLF⟩ := ihL _ _ _ _ _ _ _ _ _ _ _ h
                   refine ⟨by rw [hL1, hW1], ?_⟩
                   intro pos ht
                   rw [setStructLoopTouchedFuel.eq_def] at ht
                   dsimp only at ht
                   rw [if_neg hA, if_neg hArr] at ht
                   rw [heq] at ht
                   dsimp only at ht
                   rcases Bool.or_eq_false_iff.mp ht with ⟨ht1, ht2⟩
                   rw [hLF pos ht2, hWF pos ht1])
              | dataTypeVec3 =>
                (dsimp only at h
                 simp only [bind, Except.bind] at h
                 split at h
                 · exact Except.noConfusion h
                 · rename_i p heq
                   obtain ⟨b, c⟩ := p
                   obtain ⟨hW1, hWF⟩ := writeUniformField_frame heq
                   obtain ⟨hL1, hLF⟩ := ihL _ _ _ _ _ _ _ _ _ _ _ h
                   refine ⟨by rw [hL1, hW1], ?_⟩
                   intro pos ht
                   rw [setStructLoopTouchedFuel.eq_def] at ht
                   dsimp only at ht
                   rw [if_neg hA, if_neg hArr] at ht
                   rw [heq] at ht
                   dsimp only at ht
                   rcases Bool.or_eq_false_iff.mp ht with ⟨ht1, ht2⟩
                   rw [hLF pos ht2, hWF pos ht1])
              | dataTypeVec4 =>
                (dsimp only at h
                 simp only [bind, Except.bind] at h
                 split at h
                 · exact Except.noConfusion h
                 · rename_i p heq
                   obtain ⟨b, c⟩ := p
                   obtain ⟨hW1, hWF⟩ := writeUniformField_frame heq
                   obtain ⟨hL1, hLF⟩ := ihL _ _ _ _ _ _ _ _ _ _ _ h
                   refine ⟨by rw [hL1, hW1], ?_⟩
                   intro pos ht
                   rw [setStructLoopTouchedFuel.eq_def] at ht
                   dsimp only at ht
                   rw [if_neg hA, if_neg hArr] at ht
                   rw [heq] at ht
                   dsimp only at ht
                   rcases Bool.or_eq_false_iff.mp ht with ⟨ht1, ht2⟩
                   rw [hLF pos ht2, hWF pos ht1])
              | dataTypeMat2 =>
                (dsimp only at h
                 simp only [bind, Except.bind] at h
                 split at h
                 · exact Except.noConfusion h
                 · rename_i p heq
                   obtain ⟨b, c⟩ := p
                   obtain ⟨hW1, hWF⟩ := writeUniformField_frame heq
                   obtain ⟨hL1, hLF⟩ := ihL _ _ _ _ _ _ _ _ _ _ _ h
                   refine ⟨by rw [hL1, hW1], ?_⟩
                   intro pos ht
                   rw [setStructLoopTouchedFuel.eq_def] at ht
                   dsimp only at ht
                   rw [if_neg hA, if_neg hArr] at ht
                   rw [heq] at ht
                   dsimp only at ht
                   rcases Bool.or_eq_false_iff.mp ht with ⟨ht1, ht2⟩
                   rw [hLF pos ht2, hWF pos ht1])
              | dataTypeMat3 =>
                (dsimp only at h
                 simp only [bind, Except.bind] at h
                 split at h
                 · exact Except.noConfusion h
                 · rename_i p heq
                   obtain ⟨b, c⟩ := p
                   obtain ⟨hW1, hWF⟩ := writeUniformField_frame heq
                   obtain ⟨hL1, hLF⟩ := ihL _ _ _ _ _ _ _ _ _ _ _ h
                   refine ⟨by rw [hL1, hW1], ?_⟩
                   intro pos ht
                   rw [setStructLoopTouchedFuel.eq_def] at ht
                   dsimp only at ht
                   rw [if_neg hA, if_neg hArr] at ht
                   rw [heq] at ht
                   dsimp only at ht
                   rcases Bool.or_eq_false_iff.mp ht with ⟨ht1, ht2⟩
                   rw [hLF pos ht2, hWF pos ht1])
              | dataTypeMat4 =>
                (dsimp only at h
                 simp only [bind, Except.bind] at h
                 split at h
                 · exact Except.noConfusion h
                 · rename_i p heq
                   obtain ⟨b, c⟩ := p
                   obtain ⟨hW1, hWF⟩ := writeUniformField_frame heq
                   obtain ⟨hL1, hLF⟩ := ihL _ _ _ _ _ _ _ _ _ _ _ h
                   refine ⟨by rw [hL1, hW1], ?_⟩
                   intro pos ht
                   rw [setStructLoopTouchedFuel.eq_def] at ht
                   dsimp only at ht
                   rw [if_neg hA, if_neg hArr] at ht
                   rw [heq] at ht
                   dsimp only at ht
                   rcases Bool.or_eq_false_iff.mp ht with ⟨ht1, ht2⟩
                   rw [hLF pos ht2, hWF pos ht1])
    · intro ftu elems i asz numF offset buf bw ec b2 off2 bw2 ec2 h
      rw [setStructArrLoopFuel.eq_def] at h
      dsimp only at h
      cases elems with
      | nil =>
        simp only [Except.ok.injEq, Prod.mk.injEq] at h
        obtain ⟨h1, h2, h3, h4⟩ := h
        subst h1
        exact ⟨rfl, fun _ _ => rfl⟩
      | cons e rest =>
        dsimp only at h
        simp only [bind, Except.bind] at h
        split at h
        · exact Except.noConfusion h
        · rename_i r heq
          obtain ⟨hS1, hSF⟩ := ihS ftu buf e numF true (offset * i) r heq
          by_cases hO : offset = 0
          · rw [if_pos hO] at h
            obtain ⟨hA1, hAF⟩ := ihA _ _ _ _ _ _ _ _ _ _ _ _ _ h
            refine ⟨by rw [hA1, hS1], ?_⟩
            intro pos ht
            rw [setStructArrTouchedFuel.eq_def] at ht
            dsimp only at ht
            rw [heq] at ht
            dsimp only at ht
            rw [if_pos hO] at ht
            rcases Bool.or_eq_false_iff.mp ht with ⟨ht1, ht2⟩
            rw [hAF pos ht2, hSF pos ht1]
          · rw [if_neg hO] at h
            obtain ⟨hA1, hAF⟩ := ihA _ _ _ _ _ _ _ _ _ _ _ _ _ h
            refine ⟨by rw [hA1, hS1], ?_⟩
            intro pos ht
            rw [setStructArrTouchedFuel.eq_def] at ht
            dsimp only at ht
            rw [heq] at ht
            dsimp only at ht
            rw [if_neg hO] at ht
            rcases Bool.or_eq_false_iff.mp ht with ⟨ht1, ht2⟩
            rw [hAF pos ht2, hSF pos ht1]

lemma replicate_getD_zero (n pos : Nat) : (List.replicate n 0).getD pos 0 = 0 := by
  induction n generalizing pos with
  | zero => rfl
  | succ n ihn =>
    cases pos with
    | zero => rfl
    | succ p => exact ihn p

/-- C10 (amended): in a successful top-level `SetStruct` run the scratch
buffer keeps its length; every position the mirrored touch predicate rules
out — all bytes outside the serialized fields' stride regions and the
padding tail of each region beyond a value's natural payload — still holds
the zero the scratch buffer started with; and the flushed region is exactly
`buf[0:bytesWritten]` where `bytesWritten` is the serializer's final
cursor (zero cursor ⇒ no flush).  That cursor includes the full per-element
stride of a trailing array field, so the flush may include zero padding
bytes past the last byte actually written. -/
theorem c10_writes_within_regions (fuel : Nat) (ub : UniformBuffer)
    (inputStruct : GoValue) (out : SetStructResult)
    (h : UniformBufferSetStruct fuel ub inputStruct = .ok out) :
    out.buf.length = ub.size ∧
    (∀ pos, setStructTouchedFuel fuel ub.fields (List.replicate ub.size 0)
        inputStruct 1000000 0 pos = false →
      out.buf.getD pos 0 = 0) ∧
    out.flush = (if out.bytesWrittenAbs = 0 then none
      else some (out.buf.take out.bytesWrittenAbs)) := by
  obtain ⟨usize, ufields⟩ := ub
  simp only [UniformBufferSetStruct] at h
  obtain ⟨hlen, hfr⟩ := (setStruct_frame_all fuel).1 _ _ _ _ _ _ _ h
  refine ⟨by simpa using hlen, fun pos hp => ?_, ?_⟩
  · rw [hfr pos hp]
    exact replicate_getD_zero _ _
  · cases fuel with
    | zero =>
      rw [setStructFuel.eq_def] at h
      exact Except.noConfusion h
    | succ fuel =>
      rw [setStructFuel.eq_def] at h
      dsimp only at h
      cases ufields with
      | nil =>
        injection h with h1
        subst h1
        rfl
      | cons f0 rest =>
        cases inputStruct with
        | structV vals =>
          dsimp only at h
          simp only [bind, Except.bind] at h
          split at h
          · exact Except.noConfusion h
          · rename_i trip heq
            obtain ⟨buf2, bw, fcons⟩ := trip
            dsimp only at h
            split at h
            · injection h with h1
              subst h1
              rfl
            · rename_i hbw
              injection h with h1
              subst h1
              dsimp only
              rw [if_neg hbw]
              rfl
        | u32 _ =>
          dsimp only at h
          exact Except.noConfusion h
        | i32 _ =>
          dsimp only at h
          exact Except.noConfusion h
        | f32 _ =>
          dsimp only at h
          exact Except.noConfusion h
        | vec2 _ =>
          dsimp only at h
          exact Except.noConfusion h
        | vec3 _ =>
          dsimp only at h
          exact Except.noConfusion h
        | vec4 _ =>
          dsimp only at h
          exact Except.noConfusion h
        | mat2 _ =>
          dsimp only at h
          exact Except.noConfusion h
        | mat3 _ =>
          dsimp only at h
          exact Except.noConfusion h
        | mat4 _ =>
          dsimp only at h
          exact Except.noConfusion h
        | u32Arr _ =>
          dsimp only at h
          exact Except.noConfusion h
        | i32Arr _ =>
          dsimp only at h
          exact Except.noConfusion h
        | f32Arr _ =>
          dsimp only at h
          exact Except.noConfusion h
        | vec2Arr _ =>
          dsimp only at h
          exact Except.noConfusion h
        | vec3Arr _ =>
          dsimp only at h
          exact Except.noConfusion h
        | vec4Arr _ =>
          dsimp only at h
          exact Except.noConfusion h
        | mat2Arr _ =>
          dsimp only at h
          exact Except.noConfusion h
        | mat3Arr _ =>
          dsimp only at h
          exact Except.noConfusion h
        | mat4Arr _ =>
          dsimp only at h
          exact Except.noConfusion h
        | structArr _ =>
          dsimp only at h
          exact Except.noConfusion h

/-- C10, divergence: for the schema `[{Id:0, Type:Float32, Count:4}]` the
serializer's final cursor is 64 — the full 16-byte stride of the last
array element — although the last byte written is buf[51] (element 3's
payload at 48..51); a run over a sentinel-filled buffer shows bytes 52..63
survive untouched, yet the flush hands over `buf[0:64]`, sentinel bytes
included.  The spec's claim that bytes beyond the last write are never
uploaded is therefore false. -/
theorem c10_trailing_stride_flushed :
    (setStructFuel 50 [⟨0, 0, 4, .dataTypeFloat32⟩] (List.replicate 64 7)
        (.structV [.f32Arr [1, 2, 3, 4]]) 1000000 false 0).map
      (fun out => (out.bytesWrittenAbs, out.buf.getD 48 0,
        out.buf.drop 52, (out.flush.getD []).length,
        (out.flush.getD []).getD 52 0))
      = .ok (64, 4, List.replicate 12 7, 64, 7) := by rfl

theorem c10_writes_within_regions_witness :
    UniformBufferSetStruct 50 c2Buffer c2Values = .ok c10WitnessOut ∧
    c10WitnessOut.buf.length = c2Buffer.size ∧
    setStructTouchedFuel 50 c2Buffer.fields
      (List.replicate c2Buffer.size 0) c2Values 1000000 0 12 = false ∧
    c10WitnessOut.buf.getD 12 0 = 0 ∧
    c10WitnessOut.flush = (if c10WitnessOut.bytesWrittenAbs = 0 then none
      else some (c10WitnessOut.buf.take c10WitnessOut.bytesWrittenAbs)) := by
  have hc : UniformBufferSetStruct 50 c2Buffer c2Values = .ok c10WitnessOut := by
    rfl
  obtain ⟨h1, h2, h3⟩ :=
    c10_writes_within_regions 50 c2Buffer c2Values c10WitnessOut hc
  exact ⟨hc, h1, by decide, h2 12 (by decide), h3⟩

end Nmage
